import Mathlib

/-!
Shallow embedding of the heat-pump explanation engine
(`heat_pump_explainer.py`).  Python floats are modelled as exact
rationals (`ℚ`); Python dicts with optional keys are modelled as
structures with `Option` fields; Python exceptions (`KeyError` from a
missing required snapshot field, `ValueError` from `int()` on a
non-numeric hour slice) are modelled with `Except`.
-/

namespace HeatPump

/-- Python exceptions that can escape the analysis call.
`keyError f` models `KeyError` raised by `data[f]` on a missing field
(the spec taxonomy calls this `MissingFieldError`); `valueError`
models `ValueError` raised by `int()` on a non-numeric string. -/
inductive PyError where
  | keyError : String → PyError
  | valueError : PyError
deriving DecidableEq, Repr

/-- The dict returned by `detect_pattern`. -/
structure Classification where
  pattern_type : String
  severity : String
  confidence : String
  trigger : String
  is_anomaly : Bool
  category : String
deriving DecidableEq, Repr

/-- The inner `data` dict of a scenario record; every key the engine
reads is a field, absent keys are `none`. -/
structure RawData where
  indoor_temp : Option ℚ
  target_temp : Option ℚ
  outdoor_temp : Option ℚ
  cop : Option ℚ
  power_consumption_kw : Option ℚ
  heat_pump_status : Option String
  electricity_price_current : Option ℚ
  electricity_price_peak : Option ℚ
  vpp_signal : Option String
  weather_forecast_temp : Option ℚ
  flow_temp : Option ℚ
deriving DecidableEq, Repr

/-- The nested `property_profile` dict, flattened to the fields the
engine reads through `.get` chains. -/
structure PropertyProfile where
  house_type : Option String
  brand : Option String
  model : Option String
  size_kw : Option ℚ
  annual_spf : Option ℚ
deriving DecidableEq, Repr

/-- One scenario record as consumed by `analyze_scenario`. -/
structure ScenarioRecord where
  name : Option String
  timestamp : Option String
  data : RawData
  property_profile : Option PropertyProfile
deriving DecidableEq, Repr

/-- The dict returned by `calculate_benefits`. -/
structure Benefits where
  cost_savings : ℚ
  carbon_kg : ℚ
deriving DecidableEq, Repr

/-- The dict returned by `get_actionable_guidance`. -/
structure Guidance where
  status : String
  action : String
  detail : String
  confidence : String
  tier : String
deriving DecidableEq, Repr

/-! ## Python string and number helpers -/

/-- `str.split()` worker: walks the characters accumulating the current
word (reversed) in `acc`; whitespace closes a word. -/
def pySplitAux : List Char → List Char → List (List Char)
  | [], acc => if acc = [] then [] else [acc.reverse]
  | c :: cs, acc =>
      if c.isWhitespace then
        if acc = [] then pySplitAux cs [] else acc.reverse :: pySplitAux cs []
      else pySplitAux cs (c :: acc)

/-- Python `s.split()`: maximal runs of non-whitespace characters. -/
def pySplit (s : String) : List (List Char) := pySplitAux s.data []

/-- Python `len(s.split())`. -/
def wordCount (s : String) : ℕ := (pySplit s).length

/-- Python `' '.join(words)` at the character level. -/
def joinWords : List (List Char) → List Char
  | [] => []
  | [w] => w
  | w :: ws => w ++ ' ' :: joinWords ws

/-- Python `s.strip()`. -/
def pyStrip (s : String) : String :=
  String.mk (((s.data.dropWhile Char.isWhitespace).reverse.dropWhile
      Char.isWhitespace).reverse)

/-- Python `' '.join(s.split()[:50]) + '...'`, the over-length repair in
`generate_plain_language_explanation`. -/
def truncate50 (s : String) : String :=
  String.mk (joinWords ((pySplit s).take 50) ++ ['.', '.', '.'])

/-- ASCII digit character for `d % 10`. -/
def digitChar (d : ℕ) : Char := Char.ofNat (48 + d % 10)

/-- Decimal digits of a natural number, fuelled so it reduces in the
kernel; `fuel = n + 1` always suffices. -/
def natDigsAux : ℕ → ℕ → List Char
  | 0, _ => []
  | fuel + 1, n =>
      if n < 10 then [digitChar n]
      else natDigsAux fuel (n / 10) ++ [digitChar (n % 10)]

/-- Decimal rendering of a natural number. -/
def natRepr (n : ℕ) : String := String.mk (natDigsAux (n + 1) n)

/-- Decimal rendering of an integer. -/
def intRepr (i : ℤ) : String :=
  if i < 0 then "-" ++ natRepr i.natAbs else natRepr i.natAbs

/-- Left-pad with zeros to width `k`. -/
def padZeros (k : ℕ) (s : String) : String :=
  String.mk (List.replicate (k - s.length) '0') ++ s

/-- Python `f"{q:.kf}"`: fixed-point rendering with `k` digits after the
point.  Rounds to nearest; the half-way tie rule (Python rounds the
underlying binary float half-to-even) is never exercised by the values
analysed here. -/
def fmtFixed (k : ℕ) (q : ℚ) : String :=
  let scaled : ℤ := round (q * (10 : ℚ) ^ k)
  let sign := if scaled < 0 then "-" else ""
  let a := scaled.natAbs
  if k = 0 then sign ++ natRepr a
  else sign ++ natRepr (a / 10 ^ k) ++ "." ++ padZeros k (natRepr (a % 10 ^ k))

/-- Python `str(x)` for a float whose value is a terminating decimal
(every price/temperature literal in the scenarios); renders the
shortest decimal expansion, integers as `"n.0"`. -/
def pyStr (q : ℚ) : String :=
  match (List.range 18).find? (fun k => (q * (10 : ℚ) ^ k).den = 1) with
  | some 0 => intRepr q.num ++ ".0"
  | some k => fmtFixed k q
  | none => fmtFixed 17 q

/-- Python `round(x, k)` as exact rational rounding to `k` decimal
places (ties unexercised by the values analysed here). -/
def roundTo (k : ℕ) (q : ℚ) : ℚ :=
  ((round (q * (10 : ℚ) ^ k) : ℤ) : ℚ) / (10 : ℚ) ^ k

/-- Digit-string value, `none` when empty or containing a non-digit. -/
def digitsVal? : List Char → Option ℕ
  | [] => none
  | cs => cs.foldl
      (fun acc c =>
        acc.bind fun a =>
          if c.isDigit then some (a * 10 + (c.toNat - 48)) else none)
      (some 0)

/-- Python `int(s)` on a string: optional surrounding whitespace,
optional sign, then decimal digits; `none` models the `ValueError`
raised otherwise.  (Digit-group underscores are not modelled; no
scenario exercises them.) -/
def pyInt? (s : List Char) : Option ℤ :=
  let t := ((s.dropWhile Char.isWhitespace).reverse.dropWhile
      Char.isWhitespace).reverse
  match t with
  | '-' :: rest => (digitsVal? rest).map fun n => -(n : ℤ)
  | '+' :: rest => (digitsVal? rest).map fun n => (n : ℤ)
  | _ => (digitsVal? t).map fun n => (n : ℤ)

/-- `int(scenario_data.get('timestamp', ...)[11:13])`: slice characters
11 and 12 and parse; `ValueError` when the slice is not numeric. -/
def hourOf (ts : String) : Except PyError ℤ :=
  match pyInt? ((ts.data.drop 11).take 2) with
  | some h => .ok h
  | none => .error .valueError

/-- The timestamp actually used by `detect_pattern`
(`scenario_data.get('timestamp', '2024-01-01T12:00:00')`). -/
def effectiveTimestamp (s : ScenarioRecord) : String :=
  s.timestamp.getD "2024-01-01T12:00:00"

/-- Python truthiness of `data.get(key)` for a string field: present and
non-empty. -/
def truthyStr : Option String → Bool
  | some s => s ≠ ""
  | none => false

/-- Python truthiness of `data.get(key)` for a numeric field: present
and non-zero. -/
def truthyNum : Option ℚ → Bool
  | some q => q != 0
  | none => false

/-- Python `str.title()` worker (enough for the lowercase pattern
names): capitalize an alphabetic character following a non-alphabetic
one, lowercase the rest. -/
def pyTitleAux : List Char → Bool → List Char
  | [], _ => []
  | c :: cs, prevAlpha =>
      (if c.isAlpha then (if prevAlpha then c.toLower else c.toUpper) else c)
        :: pyTitleAux cs c.isAlpha

/-- Python `s.title()`. -/
def pyTitle (s : String) : String := String.mk (pyTitleAux s.data false)

/-- Python `s.replace('_', ' ')`. -/
def replaceUnderscores (s : String) : String :=
  String.mk (s.data.map fun c => if c = '_' then ' ' else c)

/-! ## CRITERIA 1: `detect_pattern` -/

/-- `HeatPumpExplainer.detect_pattern`: the ordered rule cascade.  The
four required fields are read first (`KeyError` when absent); the hour
is parsed only when rules 1-3 fall through, exactly as in the source. -/
def detect_pattern (scenario_data : ScenarioRecord) :
    Except PyError Classification :=
  match scenario_data.data.indoor_temp with
  | none => .error (.keyError "indoor_temp")
  | some indoor_temp =>
    let target_temp := scenario_data.data.target_temp.getD 20
    match scenario_data.data.outdoor_temp with
    | none => .error (.keyError "outdoor_temp")
    | some outdoor_temp =>
      match scenario_data.data.cop with
      | none => .error (.keyError "cop")
      | some cop =>
        match scenario_data.data.power_consumption_kw with
        | none => .error (.keyError "power_consumption_kw")
        | some power_kw =>
          if cop < 1.8 ∧ outdoor_temp > 0 then
            .ok { pattern_type := "efficiency_anomaly", severity := "high",
                  confidence := "high",
                  trigger := "COP of " ++ fmtFixed 1 cop ++
                    " is unusually low for " ++ pyStr outdoor_temp ++ "°C",
                  is_anomaly := true, category := "potential_fault" }
          else if indoor_temp < target_temp - 2 ∧
              scenario_data.data.heat_pump_status = some "heating" then
            .ok { pattern_type := "temperature_deficit", severity := "medium",
                  confidence := "high",
                  trigger := "Indoor temp " ++ pyStr indoor_temp ++ "°C is " ++
                    fmtFixed 1 (target_temp - indoor_temp) ++
                    "°C below target",
                  is_anomaly := true, category := "performance_issue" }
          else if power_kw > 3 * 1.5 then
            .ok { pattern_type := "high_power_consumption",
                  severity := "medium", confidence := "medium",
                  trigger := "Power usage " ++ fmtFixed 1 power_kw ++
                    "kW exceeds typical range",
                  is_anomaly := true, category := "efficiency_concern" }
          else
            match hourOf (effectiveTimestamp scenario_data) with
            | .error e => .error e
            | .ok hour =>
              if hour ≥ 0 ∧ hour ≤ 5 ∧
                  scenario_data.data.electricity_price_current.getD 0.15
                    < 0.12 then
                .ok { pattern_type := "tariff_optimization",
                      severity := "none", confidence := "high",
                      trigger := "Operating during cheap-rate hours",
                      is_anomaly := false, category := "smart_behavior" }
              else if truthyStr scenario_data.data.vpp_signal ∧
                  indoor_temp < target_temp then
                .ok { pattern_type := "vpp_curtailment", severity := "none",
                      confidence := "high",
                      trigger := "Grid demand response active",
                      is_anomaly := false, category := "smart_behavior" }
              else if truthyNum scenario_data.data.weather_forecast_temp ∧
                  scenario_data.data.weather_forecast_temp.getD 0
                    < outdoor_temp - 5 then
                .ok { pattern_type := "predictive_heating", severity := "none",
                      confidence := "high",
                      trigger := "Pre-heating before forecast cold snap",
                      is_anomaly := false, category := "smart_behavior" }
              else if outdoor_temp < 0 ∧ cop ≥ 2 ∧ cop < 2.8 then
                .ok { pattern_type := "cold_weather_operation",
                      severity := "none", confidence := "high",
                      trigger := "Normal efficiency for " ++
                        pyStr outdoor_temp ++ "°C weather",
                      is_anomaly := false, category := "normal_operation" }
              else
                .ok { pattern_type := "normal_operation", severity := "none",
                      confidence := "medium",
                      trigger := "Standard heating operation",
                      is_anomaly := false, category := "normal_operation" }

/-! ## Benefits calculation -/

/-- `HeatPumpExplainer.calculate_benefits`.  Total: every field is read
through `.get` with a default. -/
def calculate_benefits (scenario_data : ScenarioRecord)
    (pattern : Classification) : Benefits :=
  let data := scenario_data.data
  if pattern.pattern_type = "tariff_optimization" then
    let peak_price := data.electricity_price_peak.getD 0.28
    let actual_price := data.electricity_price_current.getD 0.08
    let power_kw := data.power_consumption_kw.getD 2
    { cost_savings := roundTo 2 ((peak_price - actual_price) * power_kw * 3),
      carbon_kg := roundTo 1 0.8 }
  else if pattern.pattern_type = "vpp_curtailment" then
    { cost_savings := roundTo 2 0.15, carbon_kg := roundTo 1 1.2 }
  else if pattern.pattern_type = "predictive_heating" then
    { cost_savings := roundTo 2 0.85, carbon_kg := roundTo 1 0.5 }
  else
    { cost_savings := roundTo 2 0, carbon_kg := roundTo 1 0 }

/-! ## CRITERIA 3: `get_actionable_guidance` -/

/-- The default entry of the source `guidance_map.get(..., {...})`
lookup. -/
def defaultGuidance : Guidance :=
  { status := " This is normal winter behaviour", action := "No action needed",
    detail := "Your heat pump is operating within expected parameters.",
    confidence := "Probably normal", tier := "normal" }

/-- `HeatPumpExplainer.get_actionable_guidance`.  The Python dict
literal is built eagerly, so its f-strings read `outdoor_temp`,
`power_consumption_kw` and `cop` with `[]` before the lookup happens;
a missing one raises `KeyError` for every pattern_type. -/
def get_actionable_guidance (pattern : Classification)
    (scenario_data : ScenarioRecord) : Except PyError Guidance :=
  match scenario_data.data.outdoor_temp with
  | none => .error (.keyError "outdoor_temp")
  | some outdoor_temp =>
    match scenario_data.data.power_consumption_kw with
    | none => .error (.keyError "power_consumption_kw")
    | some power_kw =>
      match scenario_data.data.cop with
      | none => .error (.keyError "cop")
      | some cop =>
        .ok (
          if pattern.pattern_type = "tariff_optimization" then
            { status := " This is normal winter behaviour",
              action := "No action needed",
              detail :=
                "Your smart tariff is working as designed to minimize costs.",
              confidence := "Definitely normal", tier := "normal" }
          else if pattern.pattern_type = "vpp_curtailment" then
            { status := " This is normal winter behaviour",
              action := "No action needed",
              detail := "Your system is helping balance the grid during peak demand. Temperature will recover automatically.",
              confidence := "Definitely normal", tier := "normal" }
          else if pattern.pattern_type = "predictive_heating" then
            { status := " This is normal winter behaviour",
              action := "No action needed",
              detail := "Your system is optimizing for upcoming weather. This is more efficient than reactive heating.",
              confidence := "Definitely normal", tier := "normal" }
          else if pattern.pattern_type = "cold_weather_operation" then
            { status := " This is normal winter behaviour",
              action := "No action needed",
              detail := "Heat pumps use more electricity in very cold weather (" ++ pyStr outdoor_temp ++ "°C), but remain cost-effective.",
              confidence := "Definitely normal", tier := "normal" }
          else if pattern.pattern_type = "temperature_deficit" then
            { status := " Consider checking your insulation",
              action := "Check for drafts or poor insulation",
              detail := "Your home is struggling to maintain temperature. Improving insulation could help your heat pump work more efficiently.",
              confidence := "This might need attention", tier := "check" }
          else if pattern.pattern_type = "high_power_consumption" then
            { status := " Consider checking your insulation",
              action := "Review insulation and radiator sizing",
              detail := "Power usage (" ++ fmtFixed 1 power_kw ++ "kW) is higher than typical. Better insulation could reduce this.",
              confidence := "This might need attention", tier := "check" }
          else if pattern.pattern_type = "efficiency_anomaly" then
            { status := " This might indicate a fault",
              action := "Book a service check with your installer",
              detail := "Efficiency (" ++ fmtFixed 1 cop ++ ") is lower than expected for " ++ pyStr outdoor_temp ++ "°C. Could indicate refrigerant levels, sensor issues, or airflow problems.",
              confidence := "This might indicate a fault", tier := "fault" }
          else defaultGuidance)

/-! ## CRITERIA 4: `build_transparency_data` -/

/-- `HeatPumpExplainer._interpret_cop`. -/
def interpret_cop (cop : ℚ) : String :=
  if cop ≥ 3.5 then "Excellent efficiency"
  else if cop ≥ 3 then "Good efficiency"
  else if cop ≥ 2.5 then "Moderate efficiency"
  else if cop ≥ 2 then "Acceptable for cold weather"
  else "Lower than expected - may need attention"

/-- `HeatPumpExplainer._explain_conclusion_logic`.  The Python dict
literal is eager: the vpp/predictive/cold/efficiency f-strings read
`indoor_temp`, `cop` and `outdoor_temp` with `[]` before the lookup,
so those three reads are modelled first. -/
def explain_conclusion_logic (pattern : Classification) (data : RawData) :
    Except PyError String :=
  match data.indoor_temp with
  | none => .error (.keyError "indoor_temp")
  | some indoor_temp =>
    match data.outdoor_temp with
    | none => .error (.keyError "outdoor_temp")
    | some outdoor_temp =>
      match data.cop with
      | none => .error (.keyError "cop")
      | some cop =>
        .ok (
          if pattern.pattern_type = "tariff_optimization" then
            "Detected heating during off-peak hours (cheap electricity at £"
              ++ fmtFixed 2 (data.electricity_price_current.getD 0.08)
              ++ "/kWh vs peak £"
              ++ fmtFixed 2 (data.electricity_price_peak.getD 0.28)
              ++ "/kWh)"
          else if pattern.pattern_type = "vpp_curtailment" then
            "Grid signal \x27" ++ data.vpp_signal.getD "None"
              ++ "\x27 active with temperature " ++ pyStr indoor_temp
              ++ "°C below target"
          else if pattern.pattern_type = "predictive_heating" then
            "Forecast shows temperature drop to "
              ++ (match data.weather_forecast_temp with
                  | some w => pyStr w
                  | none => "None")
              ++ "°C, system pre-heating while current outdoor temp is "
              ++ pyStr outdoor_temp ++ "°C"
          else if pattern.pattern_type = "cold_weather_operation" then
            "Outdoor temperature " ++ pyStr outdoor_temp ++ "°C with COP "
              ++ fmtFixed 1 cop ++ " is within normal range for winter"
          else if pattern.pattern_type = "efficiency_anomaly" then
            "COP " ++ fmtFixed 1 cop
              ++ " is below expected range (2.5-3.5) for outdoor temperature "
              ++ pyStr outdoor_temp ++ "°C"
          else "Analysis of operational parameters suggests normal behaviour")

/-- The `detection_details` section. -/
structure DetectionDetails where
  patternDetected : String
  detectionConfidence : String
  isAnomaly : String
  triggerShown : String
deriving DecidableEq, Repr

/-- The `measurements` section. -/
structure MeasurementsSection where
  indoorTemperature : String
  targetTemperature : String
  temperatureGap : String
  outdoorTemperature : String
  systemEfficiencyCop : String
  copInterpretation : String
  powerConsumption : String
  flowTemperature : String
deriving DecidableEq, Repr

/-- The `context` section. -/
structure ContextSection where
  timestampShown : String
  electricityPrice : String
  peakPrice : String
  gridSignal : String
  weatherForecast : String
deriving DecidableEq, Repr

/-- The `property_details` section. -/
structure PropertyDetailsSection where
  propertyType : String
  heatPump : String
  heatPumpSize : String
  typicalAnnualEfficiency : String
deriving DecidableEq, Repr

/-- The `calculated_benefits` section. -/
structure CalculatedBenefitsSection where
  costSavingsToday : String
  carbonAvoided : String
  equivalentTo : String
deriving DecidableEq, Repr

/-- The dict returned by `build_transparency_data`. -/
structure TransparencyData where
  detection_details : DetectionDetails
  measurements : MeasurementsSection
  context : ContextSection
  property_details : PropertyDetailsSection
  calculated_benefits : CalculatedBenefitsSection
  why_this_conclusion : String
deriving DecidableEq, Repr

/-- `HeatPumpExplainer.build_transparency_data`.  Reads `indoor_temp`,
`outdoor_temp`, `cop` and `power_consumption_kw` with `[]` (the dict
literal is eager), everything else through `.get` with the defaults
shown in the source. -/
def build_transparency_data (scenario_data : ScenarioRecord)
    (pattern : Classification) (benefits : Benefits) :
    Except PyError TransparencyData :=
  let data := scenario_data.data
  let profile := scenario_data.property_profile
  match data.indoor_temp with
  | none => .error (.keyError "indoor_temp")
  | some indoor_temp =>
    match data.outdoor_temp with
    | none => .error (.keyError "outdoor_temp")
    | some outdoor_temp =>
      match data.cop with
      | none => .error (.keyError "cop")
      | some cop =>
        match data.power_consumption_kw with
        | none => .error (.keyError "power_consumption_kw")
        | some power_kw =>
          match explain_conclusion_logic pattern data with
          | .error e => .error e
          | .ok why =>
            .ok {
              detection_details := {
                patternDetected :=
                  pyTitle (replaceUnderscores pattern.pattern_type),
                detectionConfidence := pyTitle pattern.confidence,
                isAnomaly := if pattern.is_anomaly then "Yes" else "No",
                triggerShown := pattern.trigger },
              measurements := {
                indoorTemperature := pyStr indoor_temp ++ "°C",
                targetTemperature := pyStr (data.target_temp.getD 20) ++ "°C",
                temperatureGap :=
                  fmtFixed 1 (data.target_temp.getD 20 - indoor_temp) ++ "°C",
                outdoorTemperature := pyStr outdoor_temp ++ "°C",
                systemEfficiencyCop := fmtFixed 1 cop,
                copInterpretation := interpret_cop cop,
                powerConsumption := fmtFixed 1 power_kw ++ " kW",
                flowTemperature :=
                  (match data.flow_temp with
                   | some f => pyStr f
                   | none => "40") ++ "°C" },
              context := {
                timestampShown := scenario_data.timestamp.getD "Unknown",
                electricityPrice := "£" ++
                  fmtFixed 2 (data.electricity_price_current.getD 0.15)
                  ++ "/kWh",
                peakPrice :=
                  if truthyNum data.electricity_price_peak then
                    "£" ++ fmtFixed 2 (data.electricity_price_peak.getD 0.28)
                      ++ "/kWh"
                  else "N/A",
                gridSignal := data.vpp_signal.getD "None",
                weatherForecast :=
                  if truthyNum data.weather_forecast_temp then
                    pyStr (data.weather_forecast_temp.getD 0) ++ "°C"
                  else "N/A" },
              property_details := {
                propertyType :=
                  (profile.bind (·.house_type)).getD "Unknown",
                heatPump := (profile.bind (·.brand)).getD "Unknown" ++ " "
                  ++ (profile.bind (·.model)).getD "",
                heatPumpSize :=
                  pyStr ((profile.bind (·.size_kw)).getD 7) ++ " kW",
                typicalAnnualEfficiency :=
                  fmtFixed 2 ((profile.bind (·.annual_spf)).getD 2.8) },
              calculated_benefits := {
                costSavingsToday := "£" ++ fmtFixed 2 benefits.cost_savings,
                carbonAvoided := fmtFixed 1 benefits.carbon_kg ++ " kg CO2",
                equivalentTo :=
                  if benefits.carbon_kg > 0 then
                    fmtFixed 1 (benefits.carbon_kg / 25) ++ " trees planted"
                  else "N/A" },
              why_this_conclusion := why }

/-! ## CRITERIA 2: narrative generation -/

/-- `HeatPumpExplainer._fallback_explanation`: the static per-pattern
template table with its interpolated values; the dict literal is eager,
so `outdoor_temp` (tariff/cold templates) and `cop` (efficiency
template) are read with `[]` for every pattern_type. -/
def fallback_explanation (pattern : Classification) (data : RawData)
    (benefits : Benefits) : Except PyError String :=
  match data.outdoor_temp with
  | none => .error (.keyError "outdoor_temp")
  | some outdoor_temp =>
    match data.cop with
    | none => .error (.keyError "cop")
    | some cop =>
      .ok (
        if pattern.pattern_type = "tariff_optimization" then
          "Your smart tariff shifted heating to cheap-rate hours, saving you £"
            ++ fmtFixed 2 benefits.cost_savings
            ++ " today. The system ran efficiently despite "
            ++ pyStr outdoor_temp ++ "°C outside."
        else if pattern.pattern_type = "vpp_curtailment" then
          "The grid asked your heat pump to reduce during peak demand. Your house will reach "
            ++ (match data.target_temp with
                | some t => pyStr t
                | none => "20")
            ++ "°C by morning as usual. This helps prevent blackouts."
        else if pattern.pattern_type = "predictive_heating" then
          "Your system is pre-heating before tonight\x27s cold snap ("
            ++ (match data.weather_forecast_temp with
                | some w => pyStr w
                | none => "-8")
            ++ "°C forecast). This uses less energy than playing catch-up later."
        else if pattern.pattern_type = "cold_weather_operation" then
          "Your heat pump is using more electricity because outdoor temperature dropped to "
            ++ pyStr outdoor_temp
            ++ "°C. This is normal winter behaviour - still cheaper than gas."
        else if pattern.pattern_type = "efficiency_anomaly" then
          "Your system\x27s efficiency (" ++ fmtFixed 1 cop
            ++ ") is lower than expected for " ++ pyStr outdoor_temp
            ++ "°C weather. Consider checking your insulation or booking a service check."
        else "Your heat pump is operating normally.")

/-- `HeatPumpExplainer.generate_plain_language_explanation`.  The prompt
f-string is built before the `try` block and reads `indoor_temp`,
`outdoor_temp` and `cop` with `[]`.  The external collaborator is
modelled by `response : Option String` — `some text` is a successful
reply, `none` any failure (unreachable service, error reply, malformed
output); the single call is consumed exactly once by construction.  On
success the reply is stripped and truncated to 50 words when longer; on
failure the static fallback table answers. -/
def generate_plain_language_explanation (scenario_data : ScenarioRecord)
    (pattern : Classification) (benefits : Benefits)
    (response : Option String) : Except PyError String :=
  match scenario_data.data.indoor_temp with
  | none => .error (.keyError "indoor_temp")
  | some _ =>
    match scenario_data.data.outdoor_temp with
    | none => .error (.keyError "outdoor_temp")
    | some _ =>
      match scenario_data.data.cop with
      | none => .error (.keyError "cop")
      | some _ =>
        match response with
        | some text =>
          let explanation := pyStrip text
          if wordCount explanation > 50 then .ok (truncate50 explanation)
          else .ok explanation
        | none => fallback_explanation pattern scenario_data.data benefits

/-! ## MAIN ANALYSIS FUNCTION -/

/-- The dict returned by `analyze_scenario`. -/
structure AnalysisResult where
  scenario_name : String
  pattern_detection : Classification
  explanation : String
  word_count : ℕ
  actionable_guidance : Guidance
  benefits : Benefits
  transparency_data : TransparencyData
deriving DecidableEq, Repr

/-- `HeatPumpExplainer.analyze_scenario`: detect → benefits →
explanation → guidance → transparency, in source order; the first
exception aborts the call with no partial result. -/
def analyze_scenario (scenario_data : ScenarioRecord)
    (response : Option String) : Except PyError AnalysisResult :=
  match detect_pattern scenario_data with
  | .error e => .error e
  | .ok pattern =>
    let benefits := calculate_benefits scenario_data pattern
    match generate_plain_language_explanation scenario_data pattern benefits
        response with
    | .error e => .error e
    | .ok explanation =>
      match get_actionable_guidance pattern scenario_data with
      | .error e => .error e
      | .ok guidance =>
        match build_transparency_data scenario_data pattern benefits with
        | .error e => .error e
        | .ok transparency =>
          .ok { scenario_name := scenario_data.name.getD "Unknown Scenario",
                pattern_detection := pattern,
                explanation := explanation,
                word_count := wordCount explanation,
                actionable_guidance := guidance,
                benefits := benefits,
                transparency_data := transparency }

/-! ## Rule predicates (for stating the first-match property)

`rulePred s it ot cp pw h i` is the predicate of rule `i` (0-based; the
spec numbers them 1-8) exactly as tested by `detect_pattern`, phrased
over the four extracted required values and the parsed hour. -/

/-- Predicate of classifier rule `i` (0-based). -/
def rulePred (s : ScenarioRecord) (it ot cp pw : ℚ) (h : ℤ) : ℕ → Prop
  | 0 => cp < 1.8 ∧ ot > 0
  | 1 => it < s.data.target_temp.getD 20 - 2 ∧
      s.data.heat_pump_status = some "heating"
  | 2 => pw > 3 * 1.5
  | 3 => h ≥ 0 ∧ h ≤ 5 ∧ s.data.electricity_price_current.getD 0.15 < 0.12
  | 4 => truthyStr s.data.vpp_signal ∧ it < s.data.target_temp.getD 20
  | 5 => truthyNum s.data.weather_forecast_temp ∧
      s.data.weather_forecast_temp.getD 0 < ot - 5
  | 6 => ot < 0 ∧ cp ≥ 2 ∧ cp < 2.8
  | _ => False

instance (s : ScenarioRecord) (it ot cp pw : ℚ) (h : ℤ) :
    (i : ℕ) → Decidable (rulePred s it ot cp pw h i)
  | 0 => inferInstanceAs (Decidable (_ ∧ _))
  | 1 => inferInstanceAs (Decidable (_ ∧ _))
  | 2 => inferInstanceAs (Decidable (_ < _))
  | 3 => inferInstanceAs (Decidable (_ ∧ _))
  | 4 => inferInstanceAs (Decidable (_ ∧ _))
  | 5 => inferInstanceAs (Decidable (_ ∧ _))
  | 6 => inferInstanceAs (Decidable (_ ∧ _))
  | _ + 7 => inferInstanceAs (Decidable False)

/-- The pattern_type produced by rule `i` (0-based). -/
def rulePattern : ℕ → String
  | 0 => "efficiency_anomaly"
  | 1 => "temperature_deficit"
  | 2 => "high_power_consumption"
  | 3 => "tariff_optimization"
  | 4 => "vpp_curtailment"
  | 5 => "predictive_heating"
  | 6 => "cold_weather_operation"
  | _ => "normal_operation"

/-- All four required snapshot fields are present. -/
def requiredPresent (s : ScenarioRecord) : Prop :=
  s.data.indoor_temp.isSome ∧ s.data.outdoor_temp.isSome ∧
    s.data.cop.isSome ∧ s.data.power_consumption_kw.isSome

instance (s : ScenarioRecord) : Decidable (requiredPresent s) := by
  unfold requiredPresent; infer_instance

/-! ## Concrete scenario records used as witnesses and counterexamples -/

/-- A raw-data record with every optional field absent, for building
concrete snapshots. -/
def baseData : RawData :=
  { indoor_temp := none, target_temp := none, outdoor_temp := none,
    cop := none, power_consumption_kw := none, heat_pump_status := none,
    electricity_price_current := none, electricity_price_peak := none,
    vpp_signal := none, weather_forecast_temp := none, flow_temp := none }

/-- The spec §8 tariff scenario: cop 3.0, outdoor −3.0, 02:30, current
price 0.08, peak 0.28, power 2.1 (indoor 19.0 to complete the required
fields). -/
def scnTariff : ScenarioRecord :=
  { name := some "tariff", timestamp := some "2024-01-15T02:30:00",
    data := { baseData with
              indoor_temp := some 19, outdoor_temp := some (-3),
              cop := some 3, power_consumption_kw := some 2.1,
              electricity_price_current := some 0.08,
              electricity_price_peak := some 0.28 },
    property_profile := none }

/-- A snapshot matching rule 1 and rule 4 at once: cop 1.5 at outdoor
3.0, taken at 02:00 with current price 0.05. -/
def scnBothRules : ScenarioRecord :=
  { name := none, timestamp := some "2024-01-15T02:00:00",
    data := { baseData with
              indoor_temp := some 20, outdoor_temp := some 3,
              cop := some 1.5, power_consumption_kw := some 2,
              electricity_price_current := some 0.05 },
    property_profile := none }

/-- A tariff snapshot whose current price 0.10 exceeds its peak price
0.05: rule 4 still fires (0.10 < 0.12) and the savings formula goes
negative. -/
def scnNegativeSavings : ScenarioRecord :=
  { name := none, timestamp := some "2024-01-15T02:00:00",
    data := { baseData with
              indoor_temp := some 20, outdoor_temp := some 5,
              cop := some 3, power_consumption_kw := some 2,
              electricity_price_current := some 0.10,
              electricity_price_peak := some 0.05 },
    property_profile := none }

/-- Tariff snapshot with current price 0.11 (otherwise like
`scnNegativeSavings` with no peak price). -/
def scnTariffEleven : ScenarioRecord :=
  { name := none, timestamp := some "2024-01-15T02:00:00",
    data := { baseData with
              indoor_temp := some 20, outdoor_temp := some 5,
              cop := some 3, power_consumption_kw := some 2,
              electricity_price_current := some 0.11 },
    property_profile := none }

/-- Tariff snapshot with current price 0.05 and no peak price. -/
def scnTariffFive : ScenarioRecord :=
  { name := none, timestamp := some "2024-01-15T02:00:00",
    data := { baseData with
              indoor_temp := some 20, outdoor_temp := some 5,
              cop := some 3, power_consumption_kw := some 2,
              electricity_price_current := some 0.05 },
    property_profile := none }

/-- All four required fields present but the timestamp hour slice is
not numeric (the string is shorter than 13 characters), and no anomaly
rule matches. -/
def scnBadTimestamp : ScenarioRecord :=
  { name := none, timestamp := some "short",
    data := { baseData with
              indoor_temp := some 20, outdoor_temp := some 5,
              cop := some 3, power_consumption_kw := some 2 },
    property_profile := none }

/-- Efficiency-anomaly snapshot with cop 1.5 at outdoor 3.0. -/
def scnEff15 : ScenarioRecord :=
  { name := none, timestamp := none,
    data := { baseData with
              indoor_temp := some 20, outdoor_temp := some 3,
              cop := some 1.5, power_consumption_kw := some 2 },
    property_profile := none }

/-- Efficiency-anomaly snapshot with cop 1.2 at outdoor 3.0. -/
def scnEff12 : ScenarioRecord :=
  { name := none, timestamp := none,
    data := { baseData with
              indoor_temp := some 20, outdoor_temp := some 3,
              cop := some 1.2, power_consumption_kw := some 2 },
    property_profile := none }

/-- Temperature-deficit snapshot with indoor 15.0 (target default 20). -/
def scnDef15 : ScenarioRecord :=
  { name := none, timestamp := none,
    data := { baseData with
              indoor_temp := some 15, outdoor_temp := some 5,
              cop := some 3, power_consumption_kw := some 2,
              heat_pump_status := some "heating" },
    property_profile := none }

/-- Temperature-deficit snapshot with indoor 16.0. -/
def scnDef16 : ScenarioRecord :=
  { name := none, timestamp := none,
    data := { baseData with
              indoor_temp := some 16, outdoor_temp := some 5,
              cop := some 3, power_consumption_kw := some 2,
              heat_pump_status := some "heating" },
    property_profile := none }

/-- High-power snapshot with power 5.0 kW. -/
def scnPow5 : ScenarioRecord :=
  { name := none, timestamp := none,
    data := { baseData with
              indoor_temp := some 20, outdoor_temp := some 5,
              cop := some 3, power_consumption_kw := some 5 },
    property_profile := none }

/-- High-power snapshot with power 6.0 kW. -/
def scnPow6 : ScenarioRecord :=
  { name := none, timestamp := none,
    data := { baseData with
              indoor_temp := some 20, outdoor_temp := some 5,
              cop := some 3, power_consumption_kw := some 6 },
    property_profile := none }

/-- Cold-weather snapshot at outdoor −5.0 with cop 2.4. -/
def scnCold5 : ScenarioRecord :=
  { name := none, timestamp := none,
    data := { baseData with
              indoor_temp := some 19.8,
              outdoor_temp := some (-5), cop := some 2.4,
              power_consumption_kw := some 2 },
    property_profile := none }

/-- Cold-weather snapshot at outdoor −6.0 with cop 2.4. -/
def scnCold6 : ScenarioRecord :=
  { name := none, timestamp := none,
    data := { baseData with
              indoor_temp := some 19.8,
              outdoor_temp := some (-6), cop := some 2.4,
              power_consumption_kw := some 2 },
    property_profile := none }

/-- Snapshot whose `vpp_signal` is present but the empty string, with
indoor below target, and no earlier rule matching. -/
def scnVppEmpty : ScenarioRecord :=
  { name := none, timestamp := none,
    data := { baseData with
              indoor_temp := some 18, outdoor_temp := some 5,
              cop := some 3, power_consumption_kw := some 2,
              vpp_signal := some "" },
    property_profile := none }

/-- Snapshot whose `weather_forecast_temp` is present with value 0.0
while outdoor is 10.0 (so 0.0 < 10.0 − 5 holds), and no earlier rule
matching. -/
def scnForecastZero : ScenarioRecord :=
  { name := none, timestamp := none,
    data := { baseData with
              indoor_temp := some 20, outdoor_temp := some 10,
              cop := some 3, power_consumption_kw := some 2,
              weather_forecast_temp := some 0 },
    property_profile := none }

/-- Tariff snapshot with current price 0.10 and its peak price absent:
the estimator falls back to the 0.28 default while the transparency
context shows `N/A`. -/
def scnPeakAbsent : ScenarioRecord :=
  { name := some "peak-absent", timestamp := some "2024-01-15T02:30:00",
    data := { baseData with
              indoor_temp := some 19, outdoor_temp := some (-3),
              cop := some 3, power_consumption_kw := some 2.1,
              electricity_price_current := some 0.10 },
    property_profile := none }

/-! ## Concrete classification, guidance and report values -/

/-- The classification produced by rule 4 (constant trigger). -/
def classTariff : Classification :=
  { pattern_type := "tariff_optimization", severity := "none",
    confidence := "high", trigger := "Operating during cheap-rate hours",
    is_anomaly := false, category := "smart_behavior" }

/-- The default classification (rule 8, constant trigger). -/
def classNormalOp : Classification :=
  { pattern_type := "normal_operation", severity := "none",
    confidence := "medium", trigger := "Standard heating operation",
    is_anomaly := false, category := "normal_operation" }

/-- Rule-1 classification for cop 1.5 at outdoor 3.0. -/
def classEff15 : Classification :=
  { pattern_type := "efficiency_anomaly", severity := "high",
    confidence := "high",
    trigger := "COP of 1.5 is unusually low for 3.0°C",
    is_anomaly := true, category := "potential_fault" }

/-- Rule-1 classification for cop 1.2 at outdoor 3.0. -/
def classEff12 : Classification :=
  { pattern_type := "efficiency_anomaly", severity := "high",
    confidence := "high",
    trigger := "COP of 1.2 is unusually low for 3.0°C",
    is_anomaly := true, category := "potential_fault" }

/-- Rule-2 classification for indoor 15.0 against the default target. -/
def classDef15 : Classification :=
  { pattern_type := "temperature_deficit", severity := "medium",
    confidence := "high",
    trigger := "Indoor temp 15.0°C is 5.0°C below target",
    is_anomaly := true, category := "performance_issue" }

/-- Rule-2 classification for indoor 16.0 against the default target. -/
def classDef16 : Classification :=
  { pattern_type := "temperature_deficit", severity := "medium",
    confidence := "high",
    trigger := "Indoor temp 16.0°C is 4.0°C below target",
    is_anomaly := true, category := "performance_issue" }

/-- Rule-3 classification for power 5.0 kW. -/
def classPow5 : Classification :=
  { pattern_type := "high_power_consumption", severity := "medium",
    confidence := "medium",
    trigger := "Power usage 5.0kW exceeds typical range",
    is_anomaly := true, category := "efficiency_concern" }

/-- Rule-3 classification for power 6.0 kW. -/
def classPow6 : Classification :=
  { pattern_type := "high_power_consumption", severity := "medium",
    confidence := "medium",
    trigger := "Power usage 6.0kW exceeds typical range",
    is_anomaly := true, category := "efficiency_concern" }

/-- Rule-7 classification for outdoor -5.0 and cop 2.4. -/
def classCold5 : Classification :=
  { pattern_type := "cold_weather_operation", severity := "none",
    confidence := "high",
    trigger := "Normal efficiency for -5.0°C weather",
    is_anomaly := false, category := "normal_operation" }

/-- Rule-7 classification for outdoor -6.0 and cop 2.4. -/
def classCold6 : Classification :=
  { pattern_type := "cold_weather_operation", severity := "none",
    confidence := "high",
    trigger := "Normal efficiency for -6.0°C weather",
    is_anomaly := false, category := "normal_operation" }

/-- The guidance record the tariff pattern resolves to. -/
def guidanceTariff : Guidance :=
  { status := " This is normal winter behaviour", action := "No action needed",
    detail := "Your smart tariff is working as designed to minimize costs.",
    confidence := "Definitely normal", tier := "normal" }

/-- The transparency report for the §8 tariff scenario with benefits
(1.26, 0.8). -/
def transparencyTariff : TransparencyData :=
  { detection_details :=
      { patternDetected := "Tariff Optimization",
        detectionConfidence := "High", isAnomaly := "No",
        triggerShown := "Operating during cheap-rate hours" },
    measurements :=
      { indoorTemperature := "19.0°C",
        targetTemperature := "20.0°C", temperatureGap := "1.0°C",
        outdoorTemperature := "-3.0°C", systemEfficiencyCop := "3.0",
        copInterpretation := "Good efficiency", powerConsumption := "2.1 kW",
        flowTemperature := "40°C" },
    context :=
      { timestampShown := "2024-01-15T02:30:00",
        electricityPrice := "£0.08/kWh", peakPrice := "£0.28/kWh",
        gridSignal := "None", weatherForecast := "N/A" },
    property_details :=
      { propertyType := "Unknown", heatPump := "Unknown ",
        heatPumpSize := "7.0 kW", typicalAnnualEfficiency := "2.80" },
    calculated_benefits :=
      { costSavingsToday := "£1.26",
        carbonAvoided := "0.8 kg CO2", equivalentTo := "0.0 trees planted" },
    why_this_conclusion := "Detected heating during off-peak hours (cheap electricity at £0.08/kWh vs peak £0.28/kWh)" }

/-- The transparency report for `scnPeakAbsent`: the estimator used the
0.28 peak default, the context section shows `N/A` instead. -/
def transparencyPeakAbsent : TransparencyData :=
  { detection_details :=
      { patternDetected := "Tariff Optimization",
        detectionConfidence := "High", isAnomaly := "No",
        triggerShown := "Operating during cheap-rate hours" },
    measurements :=
      { indoorTemperature := "19.0°C",
        targetTemperature := "20.0°C", temperatureGap := "1.0°C",
        outdoorTemperature := "-3.0°C", systemEfficiencyCop := "3.0",
        copInterpretation := "Good efficiency", powerConsumption := "2.1 kW",
        flowTemperature := "40°C" },
    context :=
      { timestampShown := "2024-01-15T02:30:00",
        electricityPrice := "£0.10/kWh", peakPrice := "N/A",
        gridSignal := "None", weatherForecast := "N/A" },
    property_details :=
      { propertyType := "Unknown", heatPump := "Unknown ",
        heatPumpSize := "7.0 kW", typicalAnnualEfficiency := "2.80" },
    calculated_benefits :=
      { costSavingsToday := "£1.13",
        carbonAvoided := "0.8 kg CO2", equivalentTo := "0.0 trees planted" },
    why_this_conclusion := "Detected heating during off-peak hours (cheap electricity at £0.10/kWh vs peak £0.28/kWh)" }

/-- A scenario record whose `cop` field is absent (the other three
required fields present). -/
def scnMissingCop : ScenarioRecord :=
  { name := none, timestamp := none,
    data := { baseData with
              indoor_temp := some 20, outdoor_temp := some 5,
              power_consumption_kw := some 2 },
    property_profile := none }

/-! ## Word-count lemmas -/

theorem strData_append (s t : String) : (s ++ t).data = s.data ++ t.data := by
  cases s; cases t; rfl

theorem pySplitAux_valid : ∀ (cs acc : List Char),
    (∀ c ∈ acc, c.isWhitespace = false) →
    ∀ w ∈ pySplitAux cs acc, w ≠ [] ∧ ∀ c ∈ w, c.isWhitespace = false := by
  intro cs
  induction cs with
  | nil =>
    intro acc hacc w hw
    by_cases h : acc = []
    · simp [pySplitAux, h] at hw
    · simp only [pySplitAux, if_neg h, List.mem_singleton] at hw
      subst hw
      refine ⟨by simpa using h, ?_⟩
      intro c hc
      exact hacc c (List.mem_reverse.mp hc)
  | cons c cs ih =>
    intro acc hacc w hw
    by_cases hsp : c.isWhitespace
    · by_cases h : acc = []
      · simp only [pySplitAux, if_pos hsp, if_pos h] at hw
        exact ih [] (by simp) w hw
      · simp only [pySplitAux, if_pos hsp, if_neg h, List.mem_cons] at hw
        rcases hw with hw | hw
        · subst hw
          refine ⟨by simpa using h, ?_⟩
          intro d hd
          exact hacc d (List.mem_reverse.mp hd)
        · exact ih [] (by simp) w hw
    · simp only [pySplitAux, if_neg hsp] at hw
      refine ih (c :: acc) ?_ w hw
      intro d hd
      rcases List.mem_cons.mp hd with hd | hd
      · subst hd; simpa using hsp
      · exact hacc d hd

theorem pySplitAux_append_nospace : ∀ (u : List Char),
    (∀ c ∈ u, c.isWhitespace = false) → ∀ (cs acc : List Char),
    pySplitAux (u ++ cs) acc = pySplitAux cs (u.reverse ++ acc) := by
  intro u
  induction u with
  | nil => intro _ cs acc; simp
  | cons c u ih =>
    intro hns cs acc
    have hc : c.isWhitespace = false := hns c (by simp)
    have hrest : ∀ d ∈ u, d.isWhitespace = false := by
      intro d hd; exact hns d (List.mem_cons_of_mem _ hd)
    rw [List.cons_append,
      show pySplitAux (c :: (u ++ cs)) acc = pySplitAux (u ++ cs) (c :: acc) by
        simp [pySplitAux, hc],
      ih hrest cs (c :: acc)]
    simp [List.reverse_cons, List.append_assoc]

theorem pySplitAux_join_count : ∀ (ws : List (List Char)),
    ws ≠ [] → (∀ w ∈ ws, w ≠ [] ∧ ∀ c ∈ w, c.isWhitespace = false) →
    ∀ (t : List Char), (∀ c ∈ t, c.isWhitespace = false) →
    (pySplitAux (joinWords ws ++ t) []).length = ws.length := by
  intro ws
  induction ws with
  | nil => intro h; exact absurd rfl h
  | cons w ws ih =>
    intro _ hvalid t ht
    have hw : w ≠ [] ∧ ∀ c ∈ w, c.isWhitespace = false :=
      hvalid w (by simp)
    cases ws with
    | nil =>
      have hwt : ∀ c ∈ w ++ t, c.isWhitespace = false := by
        intro c hc
        rcases List.mem_append.mp hc with hc | hc
        · exact hw.2 c hc
        · exact ht c hc
      have := pySplitAux_append_nospace (w ++ t) hwt [] []
      simp only [List.append_nil] at this
      rw [show joinWords [w] = w from rfl, this]
      simp [pySplitAux, hw.1]
    | cons w2 ws2 =>
      have hrec : ∀ v ∈ w2 :: ws2, v ≠ [] ∧ ∀ c ∈ v, c.isWhitespace = false := by
        intro v hv; exact hvalid v (List.mem_cons_of_mem _ hv)
      have hwns := hw.2
      have hjoin : joinWords (w :: w2 :: ws2) = w ++ ' ' :: joinWords (w2 :: ws2) := rfl
      rw [hjoin, List.append_assoc, List.cons_append]
      rw [pySplitAux_append_nospace w hwns (' ' :: (joinWords (w2 :: ws2) ++ t)) []]
      have hne : w.reverse ++ [] ≠ [] := by simp [hw.1]
      have hsp : (' ').isWhitespace = true := by decide
      simp only [pySplitAux, hsp, if_true, if_neg hne, List.length_cons]
      rw [ih (by simp) hrec t ht]
      simp

theorem pySplitAux_length_acc : ∀ (cs a b : List Char), a ≠ [] → b ≠ [] →
    (pySplitAux cs a).length = (pySplitAux cs b).length := by
  intro cs
  induction cs with
  | nil => intro a b ha hb; simp [pySplitAux, ha, hb]
  | cons c cs ih =>
    intro a b ha hb
    by_cases hsp : c.isWhitespace
    · simp [pySplitAux, hsp, ha, hb]
    · have hca : c :: a ≠ [] := by simp
      have hcb : c :: b ≠ [] := by simp
      simp only [pySplitAux, hsp, Bool.false_eq_true, if_false]
      exact ih _ _ hca hcb

theorem pySplitAux_nil_length (acc : List Char) :
    (pySplitAux [] acc).length ≤ 1 := by
  by_cases h : acc = [] <;> simp [pySplitAux, h]

theorem pySplitAux_length_le : ∀ (cs acc : List Char),
    (pySplitAux cs acc).length ≤ (pySplitAux cs []).length + 1 := by
  intro cs
  induction cs with
  | nil =>
    intro acc
    by_cases h : acc = [] <;> simp [pySplitAux, h]
  | cons c cs ih =>
    intro acc
    by_cases h : acc = []
    · subst h; exact Nat.le_add_right _ _
    · by_cases hsp : c.isWhitespace
      · rw [show pySplitAux (c :: cs) acc = acc.reverse :: pySplitAux cs [] by
            simp [pySplitAux, hsp, h],
          show pySplitAux (c :: cs) [] = pySplitAux cs [] by
            simp [pySplitAux, hsp]]
        simp
      · rw [show pySplitAux (c :: cs) acc = pySplitAux cs (c :: acc) by
            simp [pySplitAux, hsp],
          show pySplitAux (c :: cs) [] = pySplitAux cs [c] by
            simp [pySplitAux, hsp],
          pySplitAux_length_acc cs (c :: acc) [c] (by simp) (by simp)]
        exact Nat.le_add_right _ _

theorem pySplitAux_append_le : ∀ (a : List Char) (b acc : List Char),
    (pySplitAux (a ++ b) acc).length ≤
      (pySplitAux a acc).length + (pySplitAux b []).length := by
  intro a
  induction a with
  | nil =>
    intro b acc
    rw [List.nil_append]
    by_cases h : acc = []
    · subst h
      rw [show pySplitAux ([] : List Char) [] = [] from rfl]
      simp
    · rw [show pySplitAux ([] : List Char) acc = [acc.reverse] by
          simp [pySplitAux, h]]
      have := pySplitAux_length_le b acc
      simpa [Nat.add_comm] using this
  | cons c a ih =>
    intro b acc
    rw [List.cons_append]
    by_cases hsp : c.isWhitespace
    · by_cases h : acc = []
      · rw [show pySplitAux (c :: (a ++ b)) acc = pySplitAux (a ++ b) [] by
            simp [pySplitAux, hsp, h],
          show pySplitAux (c :: a) acc = pySplitAux a [] by
            simp [pySplitAux, hsp, h]]
        exact ih b []
      · rw [show pySplitAux (c :: (a ++ b)) acc
              = acc.reverse :: pySplitAux (a ++ b) [] by
            simp [pySplitAux, hsp, h],
          show pySplitAux (c :: a) acc = acc.reverse :: pySplitAux a [] by
            simp [pySplitAux, hsp, h]]
        have := ih b []
        simp only [List.length_cons]
        omega
    · rw [show pySplitAux (c :: (a ++ b)) acc = pySplitAux (a ++ b) (c :: acc) by
          simp [pySplitAux, hsp],
        show pySplitAux (c :: a) acc = pySplitAux a (c :: acc) by
          simp [pySplitAux, hsp]]
      exact ih b (c :: acc)

theorem wordCount_append_le (s t : String) :
    wordCount (s ++ t) ≤ wordCount s + wordCount t := by
  unfold wordCount pySplit
  rw [strData_append]
  exact pySplitAux_append_le s.data t.data []

theorem wordCount_nospace_le_one (s : String)
    (h : ∀ c ∈ s.data, c.isWhitespace = false) : wordCount s ≤ 1 := by
  unfold wordCount pySplit
  have := pySplitAux_append_nospace s.data h [] []
  rw [List.append_nil] at this
  rw [this]
  exact pySplitAux_nil_length _

theorem wordCount_truncate50 (s : String) (hlong : wordCount s > 50) :
    wordCount (truncate50 s) = 50 := by
  unfold wordCount pySplit truncate50
  have hvalid := pySplitAux_valid s.data [] (by simp)
  have htake : ∀ w ∈ (pySplit s).take 50, w ≠ [] ∧
      ∀ c ∈ w, c.isWhitespace = false := by
    intro w hw
    exact hvalid w (List.mem_of_mem_take hw)
  have hne : (pySplit s).take 50 ≠ [] := by
    intro hnil
    have : ((pySplit s).take 50).length = 0 := by rw [hnil]; rfl
    rw [List.length_take] at this
    unfold wordCount at hlong
    omega
  have hdots : ∀ c ∈ ['.', '.', '.'], c.isWhitespace = false := by decide
  have hcount := pySplitAux_join_count ((pySplit s).take 50) hne htake
    ['.', '.', '.'] hdots
  rw [show (String.mk (joinWords ((pySplit s).take 50) ++ ['.', '.', '.'])).data
      = joinWords ((pySplit s).take 50) ++ ['.', '.', '.'] from rfl]
  rw [hcount, List.length_take]
  unfold wordCount at hlong
  omega

/-! ## Whitespace-freeness of the number formatters -/

theorem digitChar_nospace (d : ℕ) : (digitChar d).isWhitespace = false := by
  unfold digitChar
  have h : d % 10 < 10 := Nat.mod_lt _ (by norm_num)
  set m := d % 10 with hm
  interval_cases m <;> decide

theorem natDigsAux_nospace : ∀ (fuel n : ℕ), ∀ c ∈ natDigsAux fuel n,
    c.isWhitespace = false := by
  intro fuel
  induction fuel with
  | zero => intro n c hc; simp [natDigsAux] at hc
  | succ fuel ih =>
    intro n c hc
    unfold natDigsAux at hc
    by_cases h : n < 10
    · rw [if_pos h] at hc
      rw [List.mem_singleton.mp hc]
      exact digitChar_nospace n
    · rw [if_neg h] at hc
      rcases List.mem_append.mp hc with hc | hc
      · exact ih _ c hc
      · rw [List.mem_singleton.mp hc]
        exact digitChar_nospace (n % 10)

theorem append_nospace (s t : String)
    (hs : ∀ c ∈ s.data, c.isWhitespace = false)
    (ht : ∀ c ∈ t.data, c.isWhitespace = false) :
    ∀ c ∈ (s ++ t).data, c.isWhitespace = false := by
  intro c hc
  rw [strData_append] at hc
  rcases List.mem_append.mp hc with h | h
  exacts [hs c h, ht c h]

theorem natRepr_nospace (n : ℕ) : ∀ c ∈ (natRepr n).data,
    c.isWhitespace = false :=
  fun c hc => natDigsAux_nospace (n + 1) n c hc

theorem intRepr_nospace (i : ℤ) : ∀ c ∈ (intRepr i).data,
    c.isWhitespace = false := by
  unfold intRepr
  split
  · exact append_nospace _ _ (by decide) (natRepr_nospace _)
  · exact natRepr_nospace _

theorem padZeros_nospace (k : ℕ) (s : String)
    (hs : ∀ c ∈ s.data, c.isWhitespace = false) :
    ∀ c ∈ (padZeros k s).data, c.isWhitespace = false := by
  unfold padZeros
  refine append_nospace _ _ ?_ hs
  intro c hc
  rw [List.eq_of_mem_replicate hc]
  decide

theorem fmtFixed_nospace (k : ℕ) (q : ℚ) : ∀ c ∈ (fmtFixed k q).data,
    c.isWhitespace = false := by
  unfold fmtFixed
  have hsign : ∀ c ∈ (if round (q * (10 : ℚ) ^ k) < 0 then "-" else "").data,
      c.isWhitespace = false := by
    split <;> decide
  split
  · exact append_nospace _ _ hsign (natRepr_nospace _)
  · exact append_nospace _ _
      (append_nospace _ _
        (append_nospace _ _ hsign (natRepr_nospace _)) (by decide))
      (padZeros_nospace _ _ (natRepr_nospace _))

theorem pyStr_nospace (q : ℚ) : ∀ c ∈ (pyStr q).data,
    c.isWhitespace = false := by
  unfold pyStr
  split
  · exact append_nospace _ _ (intRepr_nospace _) (by decide)
  · exact fmtFixed_nospace _ _
  · exact fmtFixed_nospace _ _

theorem wordCount_fmtFixed_le (k : ℕ) (q : ℚ) : wordCount (fmtFixed k q) ≤ 1 :=
  wordCount_nospace_le_one _ (fmtFixed_nospace k q)

theorem wordCount_pyStr_le (q : ℚ) : wordCount (pyStr q) ≤ 1 :=
  wordCount_nospace_le_one _ (pyStr_nospace q)

/-! ## The 50-word bound -/

theorem wordCount_append3_le (a b c : String) :
    wordCount (a ++ b ++ c) ≤ wordCount a + wordCount b + wordCount c := by
  have h1 := wordCount_append_le (a ++ b) c
  have h2 := wordCount_append_le a b
  omega

theorem wordCount_append5_le (a b c d e : String) :
    wordCount (a ++ b ++ c ++ d ++ e) ≤
      wordCount a + wordCount b + wordCount c + wordCount d + wordCount e := by
  have h1 := wordCount_append_le (a ++ b ++ c ++ d) e
  have h2 := wordCount_append_le (a ++ b ++ c) d
  have h3 := wordCount_append3_le a b c
  omega

theorem fallback_wordCount_le (p : Classification) (d : RawData)
    (b : Benefits) (t : String)
    (h : fallback_explanation p d b = Except.ok t) : wordCount t ≤ 50 := by
  unfold fallback_explanation at h
  rcases hout : d.outdoor_temp with _ | outdoor_temp <;> rw [hout] at h
  · exact absurd h (by simp)
  rcases hcop : d.cop with _ | cop <;> rw [hcop] at h
  · exact absurd h (by simp)
  rw [Except.ok.injEq] at h
  subst h
  split_ifs
  · have := wordCount_append5_le
      "Your smart tariff shifted heating to cheap-rate hours, saving you £"
      (fmtFixed 2 b.cost_savings)
      " today. The system ran efficiently despite "
      (pyStr outdoor_temp) "°C outside."
    have h1 := wordCount_fmtFixed_le 2 b.cost_savings
    have h2 := wordCount_pyStr_le outdoor_temp
    have e1 : wordCount
      "Your smart tariff shifted heating to cheap-rate hours, saving you £"
      = 11 := by decide
    have e2 : wordCount " today. The system ran efficiently despite " = 6 := by
      decide
    have e3 : wordCount "°C outside." = 2 := by decide
    omega
  · have := wordCount_append3_le
      "The grid asked your heat pump to reduce during peak demand. Your house will reach "
      (match d.target_temp with | some t => pyStr t | none => "20")
      "°C by morning as usual. This helps prevent blackouts."
    have h1 : wordCount
        (match d.target_temp with | some t => pyStr t | none => "20") ≤ 1 := by
      rcases d.target_temp with _ | tt
      · decide
      · exact wordCount_pyStr_le tt
    have e1 : wordCount
      "The grid asked your heat pump to reduce during peak demand. Your house will reach "
      = 15 := by decide
    have e2 : wordCount "°C by morning as usual. This helps prevent blackouts."
      = 9 := by decide
    omega
  · have := wordCount_append3_le
      "Your system is pre-heating before tonight\x27s cold snap ("
      (match d.weather_forecast_temp with | some w => pyStr w | none => "-8")
      "°C forecast). This uses less energy than playing catch-up later."
    have h1 : wordCount
        (match d.weather_forecast_temp with
         | some w => pyStr w | none => "-8") ≤ 1 := by
      rcases d.weather_forecast_temp with _ | wf
      · decide
      · exact wordCount_pyStr_le wf
    have e1 : wordCount
      "Your system is pre-heating before tonight\x27s cold snap (" = 9 := by
      decide
    have e2 : wordCount
      "°C forecast). This uses less energy than playing catch-up later."
      = 10 := by decide
    omega
  · have := wordCount_append3_le
      "Your heat pump is using more electricity because outdoor temperature dropped to "
      (pyStr outdoor_temp)
      "°C. This is normal winter behaviour - still cheaper than gas."
    have h1 := wordCount_pyStr_le outdoor_temp
    have e1 : wordCount
      "Your heat pump is using more electricity because outdoor temperature dropped to "
      = 12 := by decide
    have e2 : wordCount
      "°C. This is normal winter behaviour - still cheaper than gas."
      = 11 := by decide
    omega
  · have := wordCount_append5_le
      "Your system\x27s efficiency ("
      (fmtFixed 1 cop)
      ") is lower than expected for "
      (pyStr outdoor_temp)
      "°C weather. Consider checking your insulation or booking a service check."
    have h1 := wordCount_fmtFixed_le 1 cop
    have h2 := wordCount_pyStr_le outdoor_temp
    have e1 : wordCount "Your system\x27s efficiency (" = 4 := by decide
    have e2 : wordCount ") is lower than expected for " = 6 := by decide
    have e3 : wordCount
      "°C weather. Consider checking your insulation or booking a service check."
      = 11 := by decide
    omega
  · decide

theorem generate_wordCount_le (s : ScenarioRecord) (p : Classification)
    (b : Benefits) (r : Option String) (t : String)
    (h : generate_plain_language_explanation s p b r = Except.ok t) :
    wordCount t ≤ 50 := by
  unfold generate_plain_language_explanation at h
  rcases h1 : s.data.indoor_temp with _ | v1 <;> rw [h1] at h
  · exact absurd h (by simp)
  rcases h2 : s.data.outdoor_temp with _ | v2 <;> rw [h2] at h
  · exact absurd h (by simp)
  rcases h3 : s.data.cop with _ | v3 <;> rw [h3] at h
  · exact absurd h (by simp)
  rcases r with _ | text
  · exact fallback_wordCount_le p s.data b t h
  · simp only at h
    split_ifs at h with hlong
    · rw [Except.ok.injEq] at h
      subst h
      rw [wordCount_truncate50 _ hlong]
    · rw [Except.ok.injEq] at h
      subst h
      omega

/-! ## Classifier characterization -/

theorem detect_ok_present {s : ScenarioRecord} {c : Classification}
    (h : detect_pattern s = Except.ok c) :
    ∃ it ot cp pw, s.data.indoor_temp = some it ∧
      s.data.outdoor_temp = some ot ∧ s.data.cop = some cp ∧
      s.data.power_consumption_kw = some pw := by
  unfold detect_pattern at h
  rcases h1 : s.data.indoor_temp with _ | it <;> rw [h1] at h
  · exact absurd h (by simp)
  rcases h2 : s.data.outdoor_temp with _ | ot <;> rw [h2] at h
  · exact absurd h (by simp)
  rcases h3 : s.data.cop with _ | cp <;> rw [h3] at h
  · exact absurd h (by simp)
  rcases h4 : s.data.power_consumption_kw with _ | pw <;> rw [h4] at h
  · exact absurd h (by simp)
  exact ⟨it, ot, cp, pw, rfl, rfl, rfl, rfl⟩

/-- C1: the classifier evaluates its eight rules as an ordered list and
the first matching predicate wins.  A snapshot satisfying both the
rule-1 predicate (cop < 1.8 and outdoor_temp > 0) and the rule-4
predicate (hour in [0,5] and cheap current price) classifies as
`efficiency_anomaly`, never `tariff_optimization`; in general the
returned pattern_type is that of the lowest-numbered matching rule
(0-based here), and `normal_operation` when no rule matches. -/
theorem C1_first_match_wins (s : ScenarioRecord) (c : Classification)
    (it ot cp pw : ℚ) (h : ℤ)
    (h1 : s.data.indoor_temp = some it) (h2 : s.data.outdoor_temp = some ot)
    (h3 : s.data.cop = some cp) (h4 : s.data.power_consumption_kw = some pw)
    (hh : hourOf (effectiveTimestamp s) = Except.ok h)
    (hok : detect_pattern s = Except.ok c) :
    (rulePred s it ot cp pw h 0 ∧ rulePred s it ot cp pw h 3 →
      c.pattern_type = "efficiency_anomaly" ∧
        c.pattern_type ≠ "tariff_optimization") ∧
    ((∃ i, i ≤ 6 ∧ rulePred s it ot cp pw h i ∧
        c.pattern_type = rulePattern i ∧
        ∀ j, j < i → ¬ rulePred s it ot cp pw h j) ∨
      ((∀ i, i ≤ 6 → ¬ rulePred s it ot cp pw h i) ∧
        c.pattern_type = "normal_operation")) := by
  unfold detect_pattern at hok
  rw [h1, h2, h3, h4, hh] at hok
  dsimp only at hok
  split_ifs at hok with hc0 hc1 hc2 hc3 hc4 hc5 hc6 <;>
    rw [Except.ok.injEq] at hok <;> subst hok
  · exact ⟨fun _ => ⟨rfl, by simp⟩,
      Or.inl ⟨0, by omega, hc0, rfl, fun j hj => by omega⟩⟩
  · refine ⟨fun hp => absurd hp.1 hc0, Or.inl ⟨1, by omega, hc1, rfl, ?_⟩⟩
    intro j hj
    interval_cases j
    · exact hc0
  · refine ⟨fun hp => absurd hp.1 hc0, Or.inl ⟨2, by omega, hc2, rfl, ?_⟩⟩
    intro j hj
    interval_cases j
    exacts [hc0, hc1]
  · refine ⟨fun hp => absurd hp.1 hc0, Or.inl ⟨3, by omega, hc3, rfl, ?_⟩⟩
    intro j hj
    interval_cases j
    exacts [hc0, hc1, hc2]
  · refine ⟨fun hp => absurd hp.1 hc0, Or.inl ⟨4, by omega, hc4, rfl, ?_⟩⟩
    intro j hj
    interval_cases j
    exacts [hc0, hc1, hc2, hc3]
  · refine ⟨fun hp => absurd hp.1 hc0, Or.inl ⟨5, by omega, hc5, rfl, ?_⟩⟩
    intro j hj
    interval_cases j
    exacts [hc0, hc1, hc2, hc3, hc4]
  · refine ⟨fun hp => absurd hp.1 hc0, Or.inl ⟨6, by omega, hc6, rfl, ?_⟩⟩
    intro j hj
    interval_cases j
    exacts [hc0, hc1, hc2, hc3, hc4, hc5]
  · refine ⟨fun hp => absurd hp.1 hc0, Or.inr ⟨?_, rfl⟩⟩
    intro i hi
    interval_cases i
    exacts [hc0, hc1, hc2, hc3, hc4, hc5, hc6]

/-! ## Totality helpers -/

theorem detect_total (s : ScenarioRecord) (h : ℤ)
    (hreq : requiredPresent s)
    (hh : hourOf (effectiveTimestamp s) = Except.ok h) :
    ∃ c, detect_pattern s = Except.ok c := by
  obtain ⟨hi, ho, hc, hp⟩ := hreq
  obtain ⟨it, h1⟩ := Option.isSome_iff_exists.mp hi
  obtain ⟨ot, h2⟩ := Option.isSome_iff_exists.mp ho
  obtain ⟨cp, h3⟩ := Option.isSome_iff_exists.mp hc
  obtain ⟨pw, h4⟩ := Option.isSome_iff_exists.mp hp
  unfold detect_pattern
  rw [h1, h2, h3, h4, hh]
  dsimp only
  split_ifs <;> exact ⟨_, rfl⟩

theorem guidance_total (p : Classification) (s : ScenarioRecord)
    (hreq : requiredPresent s) :
    ∃ g, get_actionable_guidance p s = Except.ok g := by
  obtain ⟨-, ho, hc, hp⟩ := hreq
  obtain ⟨ot, h2⟩ := Option.isSome_iff_exists.mp ho
  obtain ⟨cp, h3⟩ := Option.isSome_iff_exists.mp hc
  obtain ⟨pw, h4⟩ := Option.isSome_iff_exists.mp hp
  unfold get_actionable_guidance
  rw [h2, h4, h3]
  exact ⟨_, rfl⟩

theorem explain_total (p : Classification) (d : RawData)
    (h1 : d.indoor_temp.isSome) (h2 : d.outdoor_temp.isSome)
    (h3 : d.cop.isSome) :
    ∃ t, explain_conclusion_logic p d = Except.ok t := by
  obtain ⟨it, e1⟩ := Option.isSome_iff_exists.mp h1
  obtain ⟨ot, e2⟩ := Option.isSome_iff_exists.mp h2
  obtain ⟨cp, e3⟩ := Option.isSome_iff_exists.mp h3
  unfold explain_conclusion_logic
  rw [e1, e2, e3]
  exact ⟨_, rfl⟩

theorem transparency_total (s : ScenarioRecord) (p : Classification)
    (b : Benefits) (hreq : requiredPresent s) :
    ∃ t, build_transparency_data s p b = Except.ok t := by
  obtain ⟨hi, ho, hc, hp⟩ := hreq
  obtain ⟨w, hw⟩ := explain_total p s.data hi ho hc
  obtain ⟨it, h1⟩ := Option.isSome_iff_exists.mp hi
  obtain ⟨ot, h2⟩ := Option.isSome_iff_exists.mp ho
  obtain ⟨cp, h3⟩ := Option.isSome_iff_exists.mp hc
  obtain ⟨pw, h4⟩ := Option.isSome_iff_exists.mp hp
  unfold build_transparency_data
  dsimp only
  rw [h1, h2, h3, h4, hw]
  exact ⟨_, rfl⟩

theorem fallback_total (p : Classification) (d : RawData) (b : Benefits)
    (h2 : d.outdoor_temp.isSome) (h3 : d.cop.isSome) :
    ∃ t, fallback_explanation p d b = Except.ok t := by
  obtain ⟨ot, e2⟩ := Option.isSome_iff_exists.mp h2
  obtain ⟨cp, e3⟩ := Option.isSome_iff_exists.mp h3
  unfold fallback_explanation
  rw [e2, e3]
  exact ⟨_, rfl⟩

theorem generate_total (s : ScenarioRecord) (p : Classification)
    (b : Benefits) (r : Option String) (hreq : requiredPresent s) :
    ∃ t, generate_plain_language_explanation s p b r = Except.ok t := by
  obtain ⟨hi, ho, hc, -⟩ := hreq
  obtain ⟨it, h1⟩ := Option.isSome_iff_exists.mp hi
  obtain ⟨ot, h2⟩ := Option.isSome_iff_exists.mp ho
  obtain ⟨cp, h3⟩ := Option.isSome_iff_exists.mp hc
  unfold generate_plain_language_explanation
  rw [h1, h2, h3]
  rcases r with _ | text
  · exact fallback_total p s.data b ho hc
  · dsimp only
    split_ifs <;> exact ⟨_, rfl⟩

theorem analyze_detect_error (s : ScenarioRecord) (r : Option String)
    (e : PyError) (h : detect_pattern s = Except.error e) :
    analyze_scenario s r = Except.error e := by
  unfold analyze_scenario
  rw [h]

theorem analyze_total (s : ScenarioRecord) (r : Option String) (h : ℤ)
    (hreq : requiredPresent s)
    (hh : hourOf (effectiveTimestamp s) = Except.ok h) :
    ∃ res, analyze_scenario s r = Except.ok res := by
  obtain ⟨c, hc⟩ := detect_total s h hreq hh
  obtain ⟨t, ht⟩ := generate_total s c (calculate_benefits s c) r hreq
  obtain ⟨g, hg⟩ := guidance_total c s hreq
  obtain ⟨tr, htr⟩ := transparency_total s c (calculate_benefits s c) hreq
  unfold analyze_scenario
  rw [hc]
  dsimp only
  rw [ht, hg, htr]
  exact ⟨_, rfl⟩

theorem detect_missing (s : ScenarioRecord)
    (hmiss : s.data.indoor_temp = none ∨ s.data.outdoor_temp = none ∨
      s.data.cop = none ∨ s.data.power_consumption_kw = none) :
    detect_pattern s = Except.error (PyError.keyError "indoor_temp") ∨
    detect_pattern s = Except.error (PyError.keyError "outdoor_temp") ∨
    detect_pattern s = Except.error (PyError.keyError "cop") ∨
    detect_pattern s =
      Except.error (PyError.keyError "power_consumption_kw") := by
  rcases h1 : s.data.indoor_temp with _ | it
  · left; unfold detect_pattern; rw [h1]
  rcases h2 : s.data.outdoor_temp with _ | ot
  · right; left; unfold detect_pattern; rw [h1, h2]
  rcases h3 : s.data.cop with _ | cp
  · right; right; left; unfold detect_pattern; rw [h1, h2, h3]
  rcases h4 : s.data.power_consumption_kw with _ | pw
  · right; right; right; unfold detect_pattern; rw [h1, h2, h3, h4]
  · simp [h1, h2, h3, h4] at hmiss

/-- C4 (counterexample): the claim says that with all four required
fields present no component raises, but `detect_pattern` still raises
`ValueError` from `int()` when the timestamp hour slice is not numeric
and no anomaly rule matches: `scnBadTimestamp` has all four fields yet
the analysis errors. -/
theorem C4_counterexample :
    requiredPresent scnBadTimestamp ∧
    analyze_scenario scnBadTimestamp none =
      Except.error PyError.valueError := by
  exact ⟨by with_unfolding_all decide, by with_unfolding_all rfl⟩

/-- C4 (amended): when any of the four required snapshot fields is
absent, `analyze_scenario` fails with the missing-field error
(`KeyError`, the spec taxonomy name `MissingFieldError`) raised before
any rule is evaluated, and no partial result is returned; when all four
fields are present AND the timestamp hour slice parses as an integer,
no component raises. -/
theorem C4_amended_validation :
    (∀ (s : ScenarioRecord) (r : Option String),
      (s.data.indoor_temp = none ∨ s.data.outdoor_temp = none ∨
        s.data.cop = none ∨ s.data.power_consumption_kw = none) →
      analyze_scenario s r = Except.error (PyError.keyError "indoor_temp") ∨
      analyze_scenario s r = Except.error (PyError.keyError "outdoor_temp") ∨
      analyze_scenario s r = Except.error (PyError.keyError "cop") ∨
      analyze_scenario s r =
        Except.error (PyError.keyError "power_consumption_kw")) ∧
    (∀ (s : ScenarioRecord) (r : Option String) (h : ℤ),
      requiredPresent s → hourOf (effectiveTimestamp s) = Except.ok h →
      (analyze_scenario s r).isOk = true) := by
  constructor
  · intro s r hmiss
    rcases detect_missing s hmiss with h | h | h | h
    · exact Or.inl (analyze_detect_error s r _ h)
    · exact Or.inr (Or.inl (analyze_detect_error s r _ h))
    · exact Or.inr (Or.inr (Or.inl (analyze_detect_error s r _ h)))
    · exact Or.inr (Or.inr (Or.inr (analyze_detect_error s r _ h)))
  · intro s r h hreq hh
    obtain ⟨res, hres⟩ := analyze_total s r h hreq hh
    rw [hres]
    rfl

/-- Witness for C4 (amended): a snapshot with `cop` absent produces a
missing-field error, and the §8 tariff scenario analyses without
raising. -/
theorem C4_amended_validation_witness :
    (analyze_scenario scnMissingCop none =
        Except.error (PyError.keyError "indoor_temp") ∨
      analyze_scenario scnMissingCop none =
        Except.error (PyError.keyError "outdoor_temp") ∨
      analyze_scenario scnMissingCop none =
        Except.error (PyError.keyError "cop") ∨
      analyze_scenario scnMissingCop none =
        Except.error (PyError.keyError "power_consumption_kw")) ∧
    (analyze_scenario scnTariff none).isOk = true :=
  ⟨C4_amended_validation.1 scnMissingCop none (Or.inr (Or.inr (Or.inl rfl))),
   C4_amended_validation.2 scnTariff none 2 (by with_unfolding_all decide)
     (by with_unfolding_all rfl)⟩

/-! ## C2: benefit rounding and (non-)negativity -/

theorem roundTo_den_mul (k : ℕ) (q : ℚ) :
    (roundTo k q * (10 : ℚ) ^ k).den = 1 := by
  unfold roundTo
  rw [div_mul_cancel₀]
  · exact Rat.den_intCast _
  · positivity

/-- C2 (counterexample): a tariff snapshot whose current price 0.10
exceeds its peak price 0.05 still matches rule 4 (0.10 < 0.12) and the
estimator returns a negative cost_savings — nothing is clamped to
0.0. -/
theorem C2_counterexample :
    detect_pattern scnNegativeSavings = Except.ok classTariff ∧
    scnNegativeSavings.data.electricity_price_current.getD 0.08 >
      scnNegativeSavings.data.electricity_price_peak.getD 0.28 ∧
    (calculate_benefits scnNegativeSavings classTariff).cost_savings < 0 := by
  exact ⟨by with_unfolding_all rfl, by with_unfolding_all decide,
    by with_unfolding_all decide⟩

/-- C2 (amended): the estimator's outputs are rounded (cost_savings to
2 decimals, carbon_kg to 1 decimal) and carbon_kg is never negative;
cost_savings is non-negative for every pattern_type other than
`tariff_optimization`, but for a tariff snapshot it equals
round2((peak − current) × power × 3) with no clamping, which is
negative when the current price exceeds the peak price. -/
theorem C2_amended_benefits (s : ScenarioRecord) (c : Classification) :
    (calculate_benefits s c).carbon_kg ≥ 0 ∧
    ((calculate_benefits s c).cost_savings * 100).den = 1 ∧
    ((calculate_benefits s c).carbon_kg * 10).den = 1 ∧
    (c.pattern_type ≠ "tariff_optimization" →
      (calculate_benefits s c).cost_savings ≥ 0) ∧
    (c.pattern_type = "tariff_optimization" →
      (calculate_benefits s c).cost_savings =
        roundTo 2 ((s.data.electricity_price_peak.getD 0.28 -
          s.data.electricity_price_current.getD 0.08) *
          s.data.power_consumption_kw.getD 2 * 3)) := by
  have h100 : ((10 : ℚ) ^ 2) = 100 := by norm_num
  have h10 : ((10 : ℚ) ^ 1) = 10 := by norm_num
  unfold calculate_benefits
  dsimp only
  split_ifs with ht hv hp
  · refine ⟨by dsimp only; with_unfolding_all decide, ?_, ?_,
      fun hne => absurd ht hne, fun _ => rfl⟩
    · have := roundTo_den_mul 2 ((s.data.electricity_price_peak.getD 0.28 -
        s.data.electricity_price_current.getD 0.08) *
        s.data.power_consumption_kw.getD 2 * 3)
      rwa [h100] at this
    · have := roundTo_den_mul 1 (0.8 : ℚ)
      rwa [h10] at this
  · exact ⟨by with_unfolding_all decide, by with_unfolding_all decide,
      by with_unfolding_all decide, fun _ => by with_unfolding_all decide,
      fun h => absurd h ht⟩
  · exact ⟨by with_unfolding_all decide, by with_unfolding_all decide,
      by with_unfolding_all decide, fun _ => by with_unfolding_all decide,
      fun h => absurd h ht⟩
  · exact ⟨by with_unfolding_all decide, by with_unfolding_all decide,
      by with_unfolding_all decide, fun _ => by with_unfolding_all decide,
      fun h => absurd h ht⟩

/-- Witness for C2 (amended): the tariff formula evaluated on the §8
scenario. -/
theorem C2_amended_benefits_witness :
    (calculate_benefits scnTariff classTariff).cost_savings =
      roundTo 2 ((scnTariff.data.electricity_price_peak.getD 0.28 -
        scnTariff.data.electricity_price_current.getD 0.08) *
        scnTariff.data.power_consumption_kw.getD 2 * 3) :=
  (C2_amended_benefits scnTariff classTariff).2.2.2.2 rfl

/-- Witness for C1: the snapshot with cop 1.5 at outdoor 3.0 taken at
02:00 with price 0.05 satisfies rules 1 and 4 at once and classifies as
`efficiency_anomaly`, never `tariff_optimization`. -/
theorem C1_first_match_wins_witness :
    classEff15.pattern_type = "efficiency_anomaly" ∧
      classEff15.pattern_type ≠ "tariff_optimization" :=
  (C1_first_match_wins scnBothRules classEff15 20 3 1.5 2 2
      (by with_unfolding_all rfl) (by with_unfolding_all rfl)
      (by with_unfolding_all rfl) (by with_unfolding_all rfl)
      (by with_unfolding_all rfl) (by with_unfolding_all rfl)).1
    (by with_unfolding_all decide)

/-! ## C3: trigger strings -/

/-- C3 (counterexample): the claim says every rule's trigger is
generated from the live snapshot values; but two tariff snapshots whose
current prices differ (0.05 vs 0.11) receive the identical hard-coded
trigger string. -/
theorem C3_counterexample :
    detect_pattern scnTariffFive = Except.ok classTariff ∧
    detect_pattern scnTariffEleven = Except.ok classTariff ∧
    scnTariffFive.data.electricity_price_current ≠
      scnTariffEleven.data.electricity_price_current ∧
    classTariff.trigger = "Operating during cheap-rate hours" := by
  exact ⟨by with_unfolding_all rfl, by with_unfolding_all rfl,
    by with_unfolding_all decide, rfl⟩

/-- C3 (amended): the triggers of rules 1-3 and 7 interpolate the live
snapshot values (two snapshots differing only in the matched value get
different triggers), but rules 4 (`tariff_optimization`), 5
(`vpp_curtailment`), 6 (`predictive_heating`) and the default
(`normal_operation`) return fixed constant strings for every
snapshot. -/
theorem C3_amended_triggers :
    (∀ (s : ScenarioRecord) (c : Classification),
      detect_pattern s = Except.ok c →
      (c.pattern_type = "tariff_optimization" →
        c.trigger = "Operating during cheap-rate hours") ∧
      (c.pattern_type = "vpp_curtailment" →
        c.trigger = "Grid demand response active") ∧
      (c.pattern_type = "predictive_heating" →
        c.trigger = "Pre-heating before forecast cold snap") ∧
      (c.pattern_type = "normal_operation" →
        c.trigger = "Standard heating operation")) ∧
    (detect_pattern scnEff15 = Except.ok classEff15 ∧
      detect_pattern scnEff12 = Except.ok classEff12 ∧
      classEff15.trigger ≠ classEff12.trigger) ∧
    (detect_pattern scnDef15 = Except.ok classDef15 ∧
      detect_pattern scnDef16 = Except.ok classDef16 ∧
      classDef15.trigger ≠ classDef16.trigger) ∧
    (detect_pattern scnPow5 = Except.ok classPow5 ∧
      detect_pattern scnPow6 = Except.ok classPow6 ∧
      classPow5.trigger ≠ classPow6.trigger) ∧
    (detect_pattern scnCold5 = Except.ok classCold5 ∧
      detect_pattern scnCold6 = Except.ok classCold6 ∧
      classCold5.trigger ≠ classCold6.trigger) := by
  refine ⟨?_,
    ⟨by with_unfolding_all rfl, by with_unfolding_all rfl, by decide⟩,
    ⟨by with_unfolding_all rfl, by with_unfolding_all rfl, by decide⟩,
    ⟨by with_unfolding_all rfl, by with_unfolding_all rfl, by decide⟩,
    ⟨by with_unfolding_all rfl, by with_unfolding_all rfl, by decide⟩⟩
  intro s c hok
  obtain ⟨it, ot, cp, pw, h1, h2, h3, h4⟩ := detect_ok_present hok
  unfold detect_pattern at hok
  rw [h1, h2, h3, h4] at hok
  dsimp only at hok
  rcases hh : hourOf (effectiveTimestamp s) with e | hv <;> rw [hh] at hok <;>
    dsimp only at hok
  · split_ifs at hok
    all_goals
      rw [Except.ok.injEq] at hok; subst hok;
      refine ⟨?_, ?_, ?_, ?_⟩ <;> intro hx <;>
        first | rfl | exact absurd hx (by simp)
  · split_ifs at hok
    all_goals
      rw [Except.ok.injEq] at hok
    all_goals
      subst hok
    all_goals
      refine ⟨?_, ?_, ?_, ?_⟩ <;> intro hx <;>
        first | rfl | exact absurd hx (by simp)

/-- Witness for C3 (amended): the tariff rule's constant trigger, read
off the classification the classifier actually returns for the §8
scenario. -/
theorem C3_amended_triggers_witness :
    classTariff.trigger = "Operating during cheap-rate hours" :=
  (C3_amended_triggers.1 scnTariff classTariff
    (by with_unfolding_all rfl)).1 rfl

/-! ## C10: truthiness of the optional vpp/forecast fields -/

/-- C10: the classifier tests `vpp_signal` and `weather_forecast_temp`
by Python truthiness, not presence — a present-but-empty `vpp_signal`
never yields `vpp_curtailment`, and a present `weather_forecast_temp`
of 0.0 never yields `predictive_heating`, even when the forecast
predicate 0.0 < outdoor − 5 holds; classification falls through to a
later rule (`normal_operation` in the two concrete snapshots). -/
theorem C10_truthiness :
    (∀ (s : ScenarioRecord) (c : Classification),
      detect_pattern s = Except.ok c → s.data.vpp_signal = some "" →
      c.pattern_type ≠ "vpp_curtailment") ∧
    (∀ (s : ScenarioRecord) (c : Classification),
      detect_pattern s = Except.ok c →
      s.data.weather_forecast_temp = some 0 →
      c.pattern_type ≠ "predictive_heating") ∧
    (detect_pattern scnVppEmpty = Except.ok classNormalOp ∧
      scnVppEmpty.data.vpp_signal = some "" ∧
      scnVppEmpty.data.indoor_temp.getD 0 <
        scnVppEmpty.data.target_temp.getD 20) ∧
    (detect_pattern scnForecastZero = Except.ok classNormalOp ∧
      scnForecastZero.data.weather_forecast_temp = some 0 ∧
      scnForecastZero.data.weather_forecast_temp.getD 99 <
        scnForecastZero.data.outdoor_temp.getD 0 - 5) := by
  refine ⟨?_, ?_,
    ⟨by with_unfolding_all rfl, rfl, by with_unfolding_all decide⟩,
    ⟨by with_unfolding_all rfl, rfl, by with_unfolding_all decide⟩⟩
  · intro s c hok hvpp
    obtain ⟨it, ot, cp, pw, h1, h2, h3, h4⟩ := detect_ok_present hok
    unfold detect_pattern at hok
    rw [h1, h2, h3, h4] at hok
    dsimp only at hok
    rcases hh : hourOf (effectiveTimestamp s) with e | hv <;>
      rw [hh] at hok <;> dsimp only at hok
    · split_ifs at hok
      all_goals
        rw [Except.ok.injEq] at hok; subst hok;
        intro hx; exact absurd hx (by simp)
    · split_ifs at hok with hc0 hc1 hc2 hc3 hc4 hc5 hc6
      all_goals first
        | (rw [Except.ok.injEq] at hok; subst hok;
           intro hx; refine absurd hx ?_; dsimp only; decide)
        | (exfalso; rw [hvpp] at hc4; simp [truthyStr] at hc4)
  · intro s c hok hwf
    obtain ⟨it, ot, cp, pw, h1, h2, h3, h4⟩ := detect_ok_present hok
    unfold detect_pattern at hok
    rw [h1, h2, h3, h4] at hok
    dsimp only at hok
    rcases hh : hourOf (effectiveTimestamp s) with e | hv <;>
      rw [hh] at hok <;> dsimp only at hok
    · split_ifs at hok
      all_goals
        rw [Except.ok.injEq] at hok; subst hok;
        intro hx; exact absurd hx (by simp)
    · split_ifs at hok with hc0 hc1 hc2 hc3 hc4 hc5 hc6
      all_goals first
        | (rw [Except.ok.injEq] at hok; subst hok;
           intro hx; refine absurd hx ?_; dsimp only; decide)
        | (exfalso; rw [hwf] at hc5; simp [truthyNum] at hc5)

/-- Witness for C10: the empty-string vpp snapshot is not classified as
`vpp_curtailment`. -/
theorem C10_truthiness_witness :
    classNormalOp.pattern_type ≠ "vpp_curtailment" :=
  C10_truthiness.1 scnVppEmpty classNormalOp
    (by with_unfolding_all rfl) rfl

/-! ## C5: the transparency report as re-presentation -/

/-- C5 (counterexample): the claim says the context section
interpolates the same electricity prices the estimator used, including
when absent; but for a tariff snapshot with `electricity_price_peak`
absent, the estimator computes with the 0.28 default (and
`why_this_conclusion` interpolates it) while the context section shows
`N/A` instead of that value. -/
theorem C5_counterexample :
    detect_pattern scnPeakAbsent = Except.ok classTariff ∧
    scnPeakAbsent.data.electricity_price_peak = none ∧
    calculate_benefits scnPeakAbsent classTariff =
      { cost_savings := roundTo 2 (((0.28 : ℚ) - 0.10) * 2.1 * 3),
        carbon_kg := 0.8 } ∧
    build_transparency_data scnPeakAbsent classTariff
        (calculate_benefits scnPeakAbsent classTariff) =
      Except.ok transparencyPeakAbsent ∧
    transparencyPeakAbsent.why_this_conclusion =
      "Detected heating during off-peak hours (cheap electricity at £0.10/kWh vs peak £0.28/kWh)" ∧
    transparencyPeakAbsent.context.peakPrice = "N/A" := by
  exact ⟨by with_unfolding_all rfl, rfl, by with_unfolding_all rfl,
    by with_unfolding_all rfl, rfl, rfl⟩

/-- C5 (amended): when the two price fields are present (and the peak
price non-zero, so Python truthiness keeps it), every price in the
report is the very snapshot value used by the classifier and the
estimator, the shown trigger is the classification's trigger, and the
calculated-benefits section re-presents the estimator's output
verbatim; the `N/A` display for an absent (or zero) peak price is the
one deviation, exhibited by the counterexample. -/
theorem C5_amended_report (s : ScenarioRecord) (c : Classification)
    (b : Benefits) (T : TransparencyData) (cu pk : ℚ)
    (hcu : s.data.electricity_price_current = some cu)
    (hpk : s.data.electricity_price_peak = some pk) (hpk0 : pk ≠ 0)
    (hT : build_transparency_data s c b = Except.ok T) :
    T.context.electricityPrice = "£" ++ fmtFixed 2 cu ++ "/kWh" ∧
    T.context.peakPrice = "£" ++ fmtFixed 2 pk ++ "/kWh" ∧
    T.detection_details.triggerShown = c.trigger ∧
    T.calculated_benefits.costSavingsToday =
      "£" ++ fmtFixed 2 b.cost_savings ∧
    T.calculated_benefits.carbonAvoided =
      fmtFixed 1 b.carbon_kg ++ " kg CO2" ∧
    (c.pattern_type = "tariff_optimization" →
      T.why_this_conclusion =
        "Detected heating during off-peak hours (cheap electricity at £" ++
          fmtFixed 2 cu ++ "/kWh vs peak £" ++ fmtFixed 2 pk ++ "/kWh)") := by
  unfold build_transparency_data at hT
  dsimp only at hT
  rcases h1 : s.data.indoor_temp with _ | it <;> rw [h1] at hT
  · exact absurd hT (by simp)
  rcases h2 : s.data.outdoor_temp with _ | ot <;> rw [h2] at hT
  · exact absurd hT (by simp)
  rcases h3 : s.data.cop with _ | cp <;> rw [h3] at hT
  · exact absurd hT (by simp)
  rcases h4 : s.data.power_consumption_kw with _ | pw <;> rw [h4] at hT
  · exact absurd hT (by simp)
  unfold explain_conclusion_logic at hT
  rw [h1, h2, h3] at hT
  dsimp only at hT
  rw [Except.ok.injEq] at hT
  subst hT
  refine ⟨?_, ?_, rfl, rfl, rfl, ?_⟩
  · dsimp only
    rw [hcu]
    rfl
  · dsimp only
    rw [hpk]
    simp [truthyNum, hpk0]
  · intro hpat
    dsimp only
    rw [hpat]
    simp [hcu, hpk]

/-- Witness for C5 (amended): the §8 tariff scenario's report shows the
peak price the estimator used. -/
theorem C5_amended_report_witness :
    transparencyTariff.context.peakPrice =
      "£" ++ fmtFixed 2 (0.28 : ℚ) ++ "/kWh" :=
  (C5_amended_report scnTariff classTariff
      { cost_savings := 1.26, carbon_kg := 0.8 } transparencyTariff 0.08 0.28
      rfl rfl (by norm_num) (by with_unfolding_all rfl)).2.1

/-! ## C6: the tariff benefit formula -/

/-- C6: for every snapshot classified `tariff_optimization`, the
estimator returns cost_savings = round2((peak − current) × power × 3)
with peak defaulting to 0.28 and current to 0.08 when absent, and
carbon_kg = 0.8; the §8 scenario (current 0.08, peak 0.28, power 2.1,
02:30) classifies as `tariff_optimization` with tier `normal` and
cost_savings 1.26. -/
theorem C6_tariff_benefits :
    (∀ (s : ScenarioRecord) (c : Classification) (pw : ℚ),
      detect_pattern s = Except.ok c →
      c.pattern_type = "tariff_optimization" →
      s.data.power_consumption_kw = some pw →
      calculate_benefits s c =
        { cost_savings :=
            roundTo 2 ((s.data.electricity_price_peak.getD 0.28 -
              s.data.electricity_price_current.getD 0.08) * pw * 3),
          carbon_kg := 0.8 }) ∧
    (detect_pattern scnTariff = Except.ok classTariff ∧
      get_actionable_guidance classTariff scnTariff =
        Except.ok guidanceTariff ∧
      guidanceTariff.tier = "normal" ∧
      calculate_benefits scnTariff classTariff =
        { cost_savings := 1.26, carbon_kg := 0.8 }) := by
  constructor
  · intro s c pw _ hpat hpw
    unfold calculate_benefits
    dsimp only
    rw [if_pos hpat, hpw]
    with_unfolding_all rfl
  · exact ⟨by with_unfolding_all rfl, by with_unfolding_all rfl, rfl,
      by with_unfolding_all rfl⟩

/-- Witness for C6: the formula instantiated on the §8 scenario. -/
theorem C6_tariff_benefits_witness :
    calculate_benefits scnTariff classTariff =
      { cost_savings :=
          roundTo 2 ((scnTariff.data.electricity_price_peak.getD 0.28 -
            scnTariff.data.electricity_price_current.getD 0.08) * 2.1 * 3),
        carbon_kg := 0.8 } :=
  C6_tariff_benefits.1 scnTariff classTariff 2.1
    (by with_unfolding_all rfl) rfl rfl

/-! ## C7: the 50-word narrative bound -/

/-- C7: the final narrative always has word_count ≤ 50, where
word_count is `len(text.split())` on the final text: whatever string
the collaborator returns is stripped and truncated to its first 50
words (with an ellipsis marker) when longer, every fallback template
stays within 50 words, and the `word_count` field of the analysis
result is the split length of the final text. -/
theorem C7_narrative_bound :
    (∀ (s : ScenarioRecord) (p : Classification) (b : Benefits)
      (r : Option String) (t : String),
      generate_plain_language_explanation s p b r = Except.ok t →
      wordCount t ≤ 50) ∧
    (∀ (s : ScenarioRecord) (r : Option String) (res : AnalysisResult),
      analyze_scenario s r = Except.ok res →
      res.word_count = wordCount res.explanation ∧ res.word_count ≤ 50) := by
  refine ⟨generate_wordCount_le, ?_⟩
  intro s r res h
  unfold analyze_scenario at h
  rcases hd : detect_pattern s with e | pattern <;> rw [hd] at h
  · exact absurd h (by simp)
  dsimp only at h
  rcases hg : generate_plain_language_explanation s pattern
      (calculate_benefits s pattern) r with e | expl <;> rw [hg] at h
  · exact absurd h (by simp)
  rcases hgd : get_actionable_guidance pattern s with e | g <;> rw [hgd] at h
  · exact absurd h (by simp)
  rcases ht : build_transparency_data s pattern
      (calculate_benefits s pattern) with e | tr <;> rw [ht] at h
  · exact absurd h (by simp)
  rw [Except.ok.injEq] at h
  subst h
  exact ⟨rfl, generate_wordCount_le s pattern (calculate_benefits s pattern)
    r expl hg⟩

/-- Witness for C7: a short collaborator reply passes through with its
split length below the bound. -/
theorem C7_narrative_bound_witness : wordCount "all good" ≤ 50 :=
  C7_narrative_bound.1 scnTariff classTariff
    { cost_savings := 1.26, carbon_kg := 0.8 } (some "all good") "all good"
    (by with_unfolding_all rfl)

/-! ## C8: collaborator failure and the fallback table -/

/-- C8: on any failure of the external collaborator (modelled as the
`none` response) the narrative generator returns the static
per-pattern_type fallback template verbatim — with the fixed default
text for pattern_types without a template — consuming the single
collaborator response and never propagating the error: the analysis
still returns a result. -/
theorem C8_collaborator_fallback :
    (∀ (s : ScenarioRecord) (p : Classification) (b : Benefits),
      s.data.indoor_temp.isSome →
      generate_plain_language_explanation s p b none =
        fallback_explanation p s.data b) ∧
    (∀ (p : Classification) (d : RawData) (b : Benefits) (t : String),
      fallback_explanation p d b = Except.ok t →
      p.pattern_type ∉ (["tariff_optimization", "vpp_curtailment",
        "predictive_heating", "cold_weather_operation",
        "efficiency_anomaly"] : List String) →
      t = "Your heat pump is operating normally.") ∧
    (∀ (s : ScenarioRecord) (h : ℤ),
      requiredPresent s → hourOf (effectiveTimestamp s) = Except.ok h →
      (analyze_scenario s none).isOk = true) := by
  refine ⟨?_, ?_, ?_⟩
  · intro s p b hi
    obtain ⟨it, h1⟩ := Option.isSome_iff_exists.mp hi
    unfold generate_plain_language_explanation
    rw [h1]
    rcases h2 : s.data.outdoor_temp with _ | ot
    · unfold fallback_explanation
      rw [h2]
    · rcases h3 : s.data.cop with _ | cp
      · unfold fallback_explanation
        rw [h2, h3]
      · rfl
  · intro p d b t h hnotin
    unfold fallback_explanation at h
    rcases h2 : d.outdoor_temp with _ | ot <;> rw [h2] at h
    · exact absurd h (by simp)
    rcases h3 : d.cop with _ | cp <;> rw [h3] at h
    · exact absurd h (by simp)
    rw [Except.ok.injEq] at h
    subst h
    split_ifs with hp1 hp2 hp3 hp4 hp5
    · exact absurd (by simp [hp1]) hnotin
    · exact absurd (by simp [hp2]) hnotin
    · exact absurd (by simp [hp3]) hnotin
    · exact absurd (by simp [hp4]) hnotin
    · exact absurd (by simp [hp5]) hnotin
    · rfl
  · intro s h hreq hh
    obtain ⟨res, hres⟩ := analyze_total s none h hreq hh
    rw [hres]
    rfl

/-- Witness for C8: the failed-collaborator path on the §8 scenario
answers from the static table. -/
theorem C8_collaborator_fallback_witness :
    generate_plain_language_explanation scnTariff classTariff
        { cost_savings := 1.26, carbon_kg := 0.8 } none =
      fallback_explanation classTariff scnTariff.data
        { cost_savings := 1.26, carbon_kg := 0.8 } :=
  C8_collaborator_fallback.1 scnTariff classTariff
    { cost_savings := 1.26, carbon_kg := 0.8 } rfl

/-! ## C9: the guidance tier is a strict function of pattern_type -/

/-- C9: the tier of the resolved guidance is always one of normal,
check, fault; the five normal-tier pattern_types resolve to normal, the
two check-tier ones to check, `efficiency_anomaly` to fault, and any
pattern_type not in the seven-entry table resolves to the normal-tier
default entry. -/
theorem C9_tier_function (p : Classification) (s : ScenarioRecord)
    (g : Guidance) (hok : get_actionable_guidance p s = Except.ok g) :
    (g.tier = "normal" ∨ g.tier = "check" ∨ g.tier = "fault") ∧
    (p.pattern_type ∈ (["tariff_optimization", "vpp_curtailment",
        "predictive_heating", "cold_weather_operation",
        "normal_operation"] : List String) → g.tier = "normal") ∧
    ((p.pattern_type = "temperature_deficit" ∨
        p.pattern_type = "high_power_consumption") → g.tier = "check") ∧
    (p.pattern_type = "efficiency_anomaly" → g.tier = "fault") ∧
    (p.pattern_type ∉ (["tariff_optimization", "vpp_curtailment",
        "predictive_heating", "cold_weather_operation",
        "temperature_deficit", "high_power_consumption",
        "efficiency_anomaly"] : List String) → g = defaultGuidance) := by
  unfold get_actionable_guidance at hok
  rcases h2 : s.data.outdoor_temp with _ | ot <;> rw [h2] at hok
  · exact absurd hok (by simp)
  rcases h4 : s.data.power_consumption_kw with _ | pw <;> rw [h4] at hok
  · exact absurd hok (by simp)
  rcases h3 : s.data.cop with _ | cp <;> rw [h3] at hok
  · exact absurd hok (by simp)
  rw [Except.ok.injEq] at hok
  subst hok
  split_ifs with hp1 hp2 hp3 hp4 hp5 hp6 hp7
  · exact ⟨Or.inl rfl, fun _ => rfl,
      fun hd => by rcases hd with hx | hx <;> rw [hp1] at hx <;>
        exact absurd hx (by decide),
      fun hf => by rw [hp1] at hf; exact absurd hf (by decide),
      fun hn => absurd (by simp [hp1]) hn⟩
  · exact ⟨Or.inl rfl, fun _ => rfl,
      fun hd => by rcases hd with hx | hx <;> rw [hp2] at hx <;>
        exact absurd hx (by decide),
      fun hf => by rw [hp2] at hf; exact absurd hf (by decide),
      fun hn => absurd (by simp [hp2]) hn⟩
  · exact ⟨Or.inl rfl, fun _ => rfl,
      fun hd => by rcases hd with hx | hx <;> rw [hp3] at hx <;>
        exact absurd hx (by decide),
      fun hf => by rw [hp3] at hf; exact absurd hf (by decide),
      fun hn => absurd (by simp [hp3]) hn⟩
  · exact ⟨Or.inl rfl, fun _ => rfl,
      fun hd => by rcases hd with hx | hx <;> rw [hp4] at hx <;>
        exact absurd hx (by decide),
      fun hf => by rw [hp4] at hf; exact absurd hf (by decide),
      fun hn => absurd (by simp [hp4]) hn⟩
  · exact ⟨Or.inr (Or.inl rfl),
      fun hm => by rw [hp5] at hm; exact absurd hm (by decide),
      fun _ => rfl,
      fun hf => by rw [hp5] at hf; exact absurd hf (by decide),
      fun hn => absurd (by simp [hp5]) hn⟩
  · exact ⟨Or.inr (Or.inl rfl),
      fun hm => by rw [hp6] at hm; exact absurd hm (by decide),
      fun _ => rfl,
      fun hf => by rw [hp6] at hf; exact absurd hf (by decide),
      fun hn => absurd (by simp [hp6]) hn⟩
  · exact ⟨Or.inr (Or.inr rfl),
      fun hm => by rw [hp7] at hm; exact absurd hm (by decide),
      fun hd => by rcases hd with hx | hx <;> rw [hp7] at hx <;>
        exact absurd hx (by decide),
      fun _ => rfl,
      fun hn => absurd (by simp [hp7]) hn⟩
  · exact ⟨Or.inl rfl, fun _ => rfl,
      fun hd => by rcases hd with hx | hx
                   exacts [absurd hx hp5, absurd hx hp6],
      fun hf => absurd hf hp7,
      fun _ => rfl⟩

/-- Witness for C9: the tariff pattern resolves to a closed tier. -/
theorem C9_tier_function_witness :
    guidanceTariff.tier = "normal" ∨ guidanceTariff.tier = "check" ∨
      guidanceTariff.tier = "fault" :=
  (C9_tier_function classTariff scnTariff guidanceTariff
    (by with_unfolding_all rfl)).1

end HeatPump
